import Mathlib

/-!
Shallow embedding of the data-validation and serialization core of the
`keystone-api-standard` repository (files `api/data_model/base.py`,
`api/data_model/data_model.py`, `api/data_model/ecmr.py`).

Modelling conventions:
* Python runtime values (JSON-like trees that may also hold enum members and
  pydantic model instances) are the mutual inductive `PyValue` / `PyList` /
  `PyFields`.  `PyFields` is an ordered association list, matching Python's
  insertion-ordered `dict`.
* Python floats are modelled as `Rat` (every numeric literal appearing in the
  schema and in the scenarios of interest is exactly representable).
* pydantic v2 validation of a model class is embedded as a function
  `M.validate : PyValue → Except (List ValErr) M`.  The repository sets no
  `model_config`, so pydantic's defaults apply: extra keys are silently
  ignored, all errors of one validation pass are collected (in field
  declaration order), and each error carries the location path of the field.
* `datetime`-typed leaves of the eCMR sub-schema (which carry no literal
  pattern in the source) are abstracted as opaque strings.
* `HandleBaseModel.model_dump` (base.py lines 14-49) first lets pydantic
  produce the python-mode dump (nested models become dicts, enum members are
  kept) and then runs `process_value` over every entry.  The pydantic stage is
  embedded as `M.basefields`, the second stage as `process_fields`.
-/

namespace Keystone

mutual

/-- A Python runtime value as seen by `base.py`'s `process_value`:
`None`, `bool`, `int`, `float`, `str`, an `Enum` member (carrying its
`.value` token), a pydantic `BaseModel` instance (its field mapping), a
`list`, or a `dict`. -/
inductive PyValue : Type where
  | vnull : PyValue
  | vbool (b : Bool) : PyValue
  | vint (n : Int) : PyValue
  | vnum (q : Rat) : PyValue
  | vstr (s : String) : PyValue
  | venum (tok : String) : PyValue
  | vmodel (fields : PyFields) : PyValue
  | vlist (items : PyList) : PyValue
  | vdict (entries : PyFields) : PyValue

inductive PyList : Type where
  | nil : PyList
  | cons (hd : PyValue) (tl : PyList) : PyList

inductive PyFields : Type where
  | nil : PyFields
  | cons (key : String) (val : PyValue) (tl : PyFields) : PyFields

end

deriving instance DecidableEq for PyValue, PyList, PyFields

/-- Build a `PyList` from a Lean list of values. -/
def listOf : List PyValue → PyList
  | [] => .nil
  | v :: vs => .cons v (listOf vs)

/-- Build a `PyFields` association list from a Lean list of pairs. -/
def fieldsOf : List (String × PyValue) → PyFields
  | [] => .nil
  | (k, v) :: kvs => .cons k v (fieldsOf kvs)

/-- First-occurrence lookup in a field mapping (keys of actual Python dicts
are unique, so this is dict access). -/
def PyFields.lookup : PyFields → String → Option PyValue
  | .nil, _ => none
  | .cons k v tl, key => if k = key then some v else tl.lookup key

/-- The ordered list of keys of a field mapping. -/
def PyFields.keys : PyFields → List String
  | .nil => []
  | .cons k _ tl => k :: tl.keys

mutual

/-- `process_value` of `base.py` (lines 28-46), fused with the pydantic
python-mode dump it runs after: enum members are replaced by their `.value`
token, lists and dicts are walked element-wise, a model instance becomes the
dict of its processed fields (`value.model_dump()`), and every other value
passes through unchanged. -/
def process_value : PyValue → PyValue
  | .venum tok => .vstr tok
  | .vlist items => .vlist (process_list items)
  | .vdict entries => .vdict (process_fields entries)
  | .vmodel fields => .vdict (process_fields fields)
  | .vnull => .vnull
  | .vbool b => .vbool b
  | .vint n => .vint n
  | .vnum q => .vnum q
  | .vstr s => .vstr s

def process_list : PyList → PyList
  | .nil => .nil
  | .cons v tl => .cons (process_value v) (process_list tl)

def process_fields : PyFields → PyFields
  | .nil => .nil
  | .cons k v tl => .cons k (process_value v) (process_fields tl)

end

mutual

/-- `true` when a value tree contains no enum member and no model instance:
the shape of wire-ready output. -/
def enumFreeVal : PyValue → Bool
  | .venum _ => false
  | .vmodel _ => false
  | .vlist items => enumFreeList items
  | .vdict entries => enumFreeFields entries
  | _ => true

def enumFreeList : PyList → Bool
  | .nil => true
  | .cons v tl => enumFreeVal v && enumFreeList tl

def enumFreeFields : PyFields → Bool
  | .nil => true
  | .cons _ v tl => enumFreeVal v && enumFreeFields tl

end

/-- Path navigation inside normalized output: follow a chain of dict keys. -/
def PyValue.lookupPath : PyValue → List String → Option PyValue
  | v, [] => some v
  | .vdict entries, k :: rest =>
      match entries.lookup k with
      | some v => v.lookupPath rest
      | none => none
  | _, _ :: _ => none

/-! ## Validation-error model (pydantic error kinds used by this schema) -/

/-- The kind of a single pydantic validation error. -/
inductive ErrKind : Type where
  | missing : ErrKind
  | typeMismatch : ErrKind
  | range : ErrKind
  | length : ErrKind
  | shape : ErrKind
  | enumViolation : ErrKind
  deriving DecidableEq, Repr

/-- One validation error: the location path from the validated root (list
indices rendered as decimal strings, as pydantic renders `loc`) and the kind
of violated constraint. -/
structure ValErr : Type where
  path : List String
  kind : ErrKind
  deriving DecidableEq, Repr

abbrev VRes (α : Type) : Type := Except (List ValErr) α

/-- Error-collecting application: both argument validations run, and their
error lists are concatenated (pydantic reports all errors of a pass). -/
def vapp {α β : Type} : VRes (α → β) → VRes α → VRes β
  | .ok f, .ok a => .ok (f a)
  | .error e, .ok _ => .error e
  | .ok _, .error e => .error e
  | .error e, .error f => .error (e ++ f)

/-- Tag every error of a sub-validation with the field name it occurred
under. -/
def atField {α : Type} (name : String) : VRes α → VRes α
  | .ok a => .ok a
  | .error es => .error (es.map fun e => { e with path := name :: e.path })

/-! ## Field validators (pydantic `Field(...)` constraints) -/

/-- `int` field with an inclusive lower bound (`ge=`).  Lax mode also accepts
an integral float. -/
def intGe (lo : Int) : PyValue → VRes Int
  | .vint n => if lo ≤ n then .ok n else .error [⟨[], .range⟩]
  | .vnum q =>
      if q.den = 1 then
        if lo ≤ q.num then .ok q.num else .error [⟨[], .range⟩]
      else .error [⟨[], .typeMismatch⟩]
  | _ => .error [⟨[], .typeMismatch⟩]

/-- `int` field with inclusive bounds (`ge=`/`le=`).  Lax mode also accepts
an integral float. -/
def intIn (lo hi : Int) : PyValue → VRes Int
  | .vint n => if lo ≤ n ∧ n ≤ hi then .ok n else .error [⟨[], .range⟩]
  | .vnum q =>
      if q.den = 1 then
        if lo ≤ q.num ∧ q.num ≤ hi then .ok q.num else .error [⟨[], .range⟩]
      else .error [⟨[], .typeMismatch⟩]
  | _ => .error [⟨[], .typeMismatch⟩]

/-- `float` field with inclusive bounds (`ge=`/`le=`); an `int` is accepted
and widened. -/
def numIn (lo hi : Rat) : PyValue → VRes Rat
  | .vnum q => if lo ≤ q ∧ q ≤ hi then .ok q else .error [⟨[], .range⟩]
  | .vint n =>
      if lo ≤ (n : Rat) ∧ (n : Rat) ≤ hi then .ok (n : Rat)
      else .error [⟨[], .range⟩]
  | _ => .error [⟨[], .typeMismatch⟩]

/-- `float` field with only an inclusive lower bound (`ge=`). -/
def numGe (lo : Rat) : PyValue → VRes Rat
  | .vnum q => if lo ≤ q then .ok q else .error [⟨[], .range⟩]
  | .vint n => if lo ≤ (n : Rat) then .ok (n : Rat) else .error [⟨[], .range⟩]
  | _ => .error [⟨[], .typeMismatch⟩]

/-- `str` field with `min_length`/`max_length` bounds. -/
def strLen (lo hi : Nat) : PyValue → VRes String
  | .vstr s =>
      if lo ≤ s.length ∧ s.length ≤ hi then .ok s else .error [⟨[], .length⟩]
  | _ => .error [⟨[], .typeMismatch⟩]

/-- `str` field with an anchored `pattern=` regex, embedded as a boolean
shape predicate on the whole string. -/
def strShape (p : String → Bool) : PyValue → VRes String
  | .vstr s => if p s then .ok s else .error [⟨[], .shape⟩]
  | _ => .error [⟨[], .typeMismatch⟩]

/-- `str` field with both length bounds and a `pattern=` regex. -/
def strLenShape (lo hi : Nat) (p : String → Bool) : PyValue → VRes String
  | .vstr s =>
      if lo ≤ s.length ∧ s.length ≤ hi then
        if p s then .ok s else .error [⟨[], .shape⟩]
      else .error [⟨[], .length⟩]
  | _ => .error [⟨[], .typeMismatch⟩]

/-- Unconstrained `str` field. -/
def strAny : PyValue → VRes String
  | .vstr s => .ok s
  | _ => .error [⟨[], .typeMismatch⟩]

/-- `bool` field. -/
def boolF : PyValue → VRes Bool
  | .vbool b => .ok b
  | _ => .error [⟨[], .typeMismatch⟩]

/-- `datetime` field of the eCMR sub-schema, abstracted as an opaque
string (the source attaches no literal pattern to these leaves). -/
def dtF : PyValue → VRes String
  | .vstr s => .ok s
  | _ => .error [⟨[], .typeMismatch⟩]

/-- Enum-typed field: a string is looked up among the declared members by
value; anything else is an enum violation. -/
def enumF {ε : Type} (parse : String → Option ε) : PyValue → VRes ε
  | .vstr s =>
      match parse s with
      | some e => .ok e
      | none => .error [⟨[], .enumViolation⟩]
  | _ => .error [⟨[], .enumViolation⟩]

/-- Validate the elements of a list, tagging errors with the element index. -/
def elemsVal {α : Type} (elem : PyValue → VRes α) : Nat → PyList → VRes (List α)
  | _, .nil => .ok []
  | i, .cons v tl =>
      vapp (vapp (.ok List.cons) (atField (toString i) (elem v)))
        (elemsVal elem (i + 1) tl)

/-- `List[...]` field. -/
def listF {α : Type} (elem : PyValue → VRes α) : PyValue → VRes (List α)
  | .vlist items => elemsVal elem 0 items
  | _ => .error [⟨[], .typeMismatch⟩]

/-- `List[...]` field with `min_items`/`max_items` bounds. -/
def listBounded {α : Type} (lo hi : Nat) (elem : PyValue → VRes α) :
    PyValue → VRes (List α)
  | .vlist items =>
      match elemsVal elem 0 items with
      | .error es => .error es
      | .ok xs =>
          if lo ≤ xs.length ∧ xs.length ≤ hi then .ok xs
          else .error [⟨[], .length⟩]
  | _ => .error [⟨[], .typeMismatch⟩]

/-- A required field: absent is a `missing` error, present runs the
validator. -/
def reqF {α : Type} (f : PyValue → VRes α) : Option PyValue → VRes α
  | none => .error [⟨[], .missing⟩]
  | some v => f v

/-- An `Optional[...] = None` field: absent or explicit `None` yields the
default `None`, anything else must satisfy the constraint. -/
def optF {α : Type} (f : PyValue → VRes α) : Option PyValue → VRes (Option α)
  | none => .ok none
  | some .vnull => .ok none
  | some v => (f v).map some

/-! ## Anchored regex patterns of the schema, as whole-string predicates -/

/-- ASCII decimal digit. -/
def isDigitCh (c : Char) : Bool := '0' ≤ c && c ≤ '9'

/-- ASCII uppercase letter. -/
def isUpperCh (c : Char) : Bool := 'A' ≤ c && c ≤ 'Z'

/-- `^\d{4}-\d{2}-\d{2}$` -/
def dateShape (s : String) : Bool :=
  match s.data with
  | [y1, y2, y3, y4, d1, m1, m2, d2, a1, a2] =>
      isDigitCh y1 && isDigitCh y2 && isDigitCh y3 && isDigitCh y4 &&
      d1 = '-' && isDigitCh m1 && isDigitCh m2 && d2 = '-' &&
      isDigitCh a1 && isDigitCh a2
  | _ => false

/-- `^\d{4}-\d{2}-\d{2}T\d{2}:\d{2}:\d{2}Z$` -/
def dateTimeShape (s : String) : Bool :=
  match s.data with
  | [y1, y2, y3, y4, d1, m1, m2, d2, a1, a2, t, h1, h2, c1, n1, n2, c2, s1, s2, z] =>
      isDigitCh y1 && isDigitCh y2 && isDigitCh y3 && isDigitCh y4 &&
      d1 = '-' && isDigitCh m1 && isDigitCh m2 && d2 = '-' &&
      isDigitCh a1 && isDigitCh a2 && t = 'T' &&
      isDigitCh h1 && isDigitCh h2 && c1 = ':' &&
      isDigitCh n1 && isDigitCh n2 && c2 = ':' &&
      isDigitCh s1 && isDigitCh s2 && z = 'Z'
  | _ => false

/-- `^[A-Z]{2,4}$` -/
def countryCodeShape (s : String) : Bool :=
  2 ≤ s.length && s.length ≤ 4 && s.data.all isUpperCh

/-- `^[A-Z]{2}$` -/
def cc2Shape (s : String) : Bool :=
  s.length = 2 && s.data.all isUpperCh

/-- `^[A-Z0-9]{1,16}$` -/
def idCodeShape (s : String) : Bool :=
  1 ≤ s.length && s.length ≤ 16 &&
  s.data.all fun c => isUpperCh c || isDigitCh c

/-- `^(\+|\d)[0-9\s\-().]{0,31}$` (phone numbers of the eCMR sub-schema). -/
def phoneShape (s : String) : Bool :=
  match s.data with
  | [] => false
  | c :: rest =>
      (c = '+' || isDigitCh c) && rest.length ≤ 31 &&
      rest.all fun d =>
        isDigitCh d || d = ' ' || d = '\t' || d = '\n' || d = '\r' ||
        d = '-' || d = '(' || d = ')' || d = '.'

/-! ## data_model.py — validated record types, their validators and their
pydantic python-mode dumps (`basefields`) -/

/-- Dump of an `Optional[...]` field: `None` dumps to `null`. -/
def optDump {α : Type} (f : α → PyValue) : Option α → PyValue
  | none => .vnull
  | some a => f a

/-- Dump of a `List[...]` field. -/
def listDump {α : Type} (f : α → PyValue) (xs : List α) : PyValue :=
  .vlist (listOf (xs.map f))

/-- `Payload` (data_model.py lines 17-23): `RootModel` over `Dict[str, Any]`
— an open string-keyed map whose values carry no constraint. -/
structure Payload : Type where
  root : PyFields
  deriving DecidableEq

/-- Validation of `Payload`: any dict is accepted as-is. -/
def Payload.validate : PyValue → VRes Payload
  | .vdict entries => .ok ⟨entries⟩
  | _ => .error [⟨[], .typeMismatch⟩]

/-- pydantic python-mode dump of a `Payload`: the root dict, values as-is. -/
def Payload.base (p : Payload) : PyValue := .vdict p.root

/-- `Coordinates` (data_model.py lines 26-36). -/
structure Coordinates : Type where
  latitude : Rat
  longitude : Rat
  deriving DecidableEq

/-- Validation of `Coordinates`: `latitude ∈ [-90, 90]`,
`longitude ∈ [-180, 180]`, both required. -/
def Coordinates.validate : PyValue → VRes Coordinates
  | .vdict kvs =>
      vapp (vapp (.ok Coordinates.mk)
        (atField "latitude" (reqF (numIn (-90) 90) (kvs.lookup "latitude"))))
        (atField "longitude" (reqF (numIn (-180) 180) (kvs.lookup "longitude")))
  | _ => .error [⟨[], .typeMismatch⟩]

/-- pydantic python-mode dump of `Coordinates`. -/
def Coordinates.basefields (c : Coordinates) : PyFields :=
  fieldsOf [("latitude", .vnum c.latitude), ("longitude", .vnum c.longitude)]

/-- `Geolocation` (data_model.py lines 39-51). -/
structure Geolocation : Type where
  dateTime : String
  coordinates : Coordinates
  deriving DecidableEq

/-- Validation of `Geolocation`. -/
def Geolocation.validate : PyValue → VRes Geolocation
  | .vdict kvs =>
      vapp (vapp (.ok Geolocation.mk)
        (atField "dateTime" (reqF (strShape dateTimeShape) (kvs.lookup "dateTime"))))
        (atField "coordinates" (reqF Coordinates.validate (kvs.lookup "coordinates")))
  | _ => .error [⟨[], .typeMismatch⟩]

/-- pydantic python-mode dump of `Geolocation`. -/
def Geolocation.basefields (g : Geolocation) : PyFields :=
  fieldsOf [("dateTime", .vstr g.dateTime),
    ("coordinates", .vdict g.coordinates.basefields)]

/-- `Mode` enum (data_model.py lines 54-64). -/
inductive Mode : Type where
  | GENERIC | GATE | TERMINAL | PORT | AIRPORT | STATION
  deriving DecidableEq

/-- The `.value` token of each `Mode` member. -/
def Mode.value : Mode → String
  | .GENERIC => "GENERIC"
  | .GATE => "GATE"
  | .TERMINAL => "TERMINAL"
  | .PORT => "PORT"
  | .AIRPORT => "AIRPORT"
  | .STATION => "STATION"

/-- pydantic enum lookup by value for `Mode`. -/
def Mode.ofString? : String → Option Mode
  | "GENERIC" => some .GENERIC
  | "GATE" => some .GATE
  | "TERMINAL" => some .TERMINAL
  | "PORT" => some .PORT
  | "AIRPORT" => some .AIRPORT
  | "STATION" => some .STATION
  | _ => none

/-- `Location` (data_model.py lines 67-82). -/
structure Location : Type where
  id : Int
  countryCode : String
  description : String
  mode : Mode
  coordinates : Option Coordinates
  deriving DecidableEq

/-- Validation of `Location`. -/
def Location.validate : PyValue → VRes Location
  | .vdict kvs =>
      vapp (vapp (vapp (vapp (vapp (.ok Location.mk)
        (atField "id" (reqF (intGe 1) (kvs.lookup "id"))))
        (atField "countryCode" (reqF (strShape countryCodeShape) (kvs.lookup "countryCode"))))
        (atField "description" (reqF (strLen 1 100) (kvs.lookup "description"))))
        (atField "mode" (reqF (enumF Mode.ofString?) (kvs.lookup "mode"))))
        (atField "coordinates" (optF Coordinates.validate (kvs.lookup "coordinates")))
  | _ => .error [⟨[], .typeMismatch⟩]

/-- pydantic python-mode dump of `Location` (enums kept as members). -/
def Location.basefields (l : Location) : PyFields :=
  fieldsOf [("id", .vint l.id),
    ("countryCode", .vstr l.countryCode),
    ("description", .vstr l.description),
    ("mode", .venum l.mode.value),
    ("coordinates", optDump (fun c => .vdict c.basefields) l.coordinates)]

/-- `HandleBaseModel.model_dump` for a `Location`: the pydantic dump with
`process_value` applied to every entry (base.py line 49). -/
def Location.model_dump (l : Location) : PyValue :=
  .vdict (process_fields l.basefields)

/-- `Owner` (data_model.py lines 85-100). -/
structure Owner : Type where
  id : Int
  name : String
  vat : Option String
  payload : Option Payload
  deriving DecidableEq

/-- Validation of `Owner`. -/
def Owner.validate : PyValue → VRes Owner
  | .vdict kvs =>
      vapp (vapp (vapp (vapp (.ok Owner.mk)
        (atField "id" (reqF (intGe 1) (kvs.lookup "id"))))
        (atField "name" (reqF (strLen 1 20) (kvs.lookup "name"))))
        (atField "vat" (optF (strLen 2 13) (kvs.lookup "vat"))))
        (atField "payload" (optF Payload.validate (kvs.lookup "payload")))
  | _ => .error [⟨[], .typeMismatch⟩]

/-- pydantic python-mode dump of `Owner`. -/
def Owner.basefields (o : Owner) : PyFields :=
  fieldsOf [("id", .vint o.id),
    ("name", .vstr o.name),
    ("vat", optDump .vstr o.vat),
    ("payload", optDump Payload.base o.payload)]

/-- `HandleBaseModel.model_dump` for an `Owner`. -/
def Owner.model_dump (o : Owner) : PyValue :=
  .vdict (process_fields o.basefields)

/-- `Insurance` (data_model.py lines 103-128). -/
structure Insurance : Type where
  id : Int
  name : String
  number : String
  isInsured : Bool
  activationDate : String
  expirationDate : String
  payload : Option Payload
  deriving DecidableEq

/-- Validation of `Insurance`: date fields are checked only against the
digit-shape pattern `^\d{4}-\d{2}-\d{2}$`. -/
def Insurance.validate : PyValue → VRes Insurance
  | .vdict kvs =>
      vapp (vapp (vapp (vapp (vapp (vapp (vapp (.ok Insurance.mk)
        (atField "id" (reqF (intGe 1) (kvs.lookup "id"))))
        (atField "name" (reqF (strLen 1 20) (kvs.lookup "name"))))
        (atField "number" (reqF (strLen 1 20) (kvs.lookup "number"))))
        (atField "isInsured" (reqF boolF (kvs.lookup "isInsured"))))
        (atField "activationDate" (reqF (strShape dateShape) (kvs.lookup "activationDate"))))
        (atField "expirationDate" (reqF (strShape dateShape) (kvs.lookup "expirationDate"))))
        (atField "payload" (optF Payload.validate (kvs.lookup "payload")))
  | _ => .error [⟨[], .typeMismatch⟩]

/-- pydantic python-mode dump of `Insurance`. -/
def Insurance.basefields (i : Insurance) : PyFields :=
  fieldsOf [("id", .vint i.id),
    ("name", .vstr i.name),
    ("number", .vstr i.number),
    ("isInsured", .vbool i.isInsured),
    ("activationDate", .vstr i.activationDate),
    ("expirationDate", .vstr i.expirationDate),
    ("payload", optDump Payload.base i.payload)]

/-- `Revision` (data_model.py lines 131-153). -/
structure Revision : Type where
  id : Int
  name : String
  number : String
  executionDate : String
  expirationDate : String
  payload : Option Payload
  deriving DecidableEq

/-- Validation of `Revision`. -/
def Revision.validate : PyValue → VRes Revision
  | .vdict kvs =>
      vapp (vapp (vapp (vapp (vapp (vapp (.ok Revision.mk)
        (atField "id" (reqF (intGe 1) (kvs.lookup "id"))))
        (atField "name" (reqF (strLen 1 20) (kvs.lookup "name"))))
        (atField "number" (reqF (strLen 1 20) (kvs.lookup "number"))))
        (atField "executionDate" (reqF (strShape dateShape) (kvs.lookup "executionDate"))))
        (atField "expirationDate" (reqF (strShape dateShape) (kvs.lookup "expirationDate"))))
        (atField "payload" (optF Payload.validate (kvs.lookup "payload")))
  | _ => .error [⟨[], .typeMismatch⟩]

/-- pydantic python-mode dump of `Revision`. -/
def Revision.basefields (r : Revision) : PyFields :=
  fieldsOf [("id", .vint r.id),
    ("name", .vstr r.name),
    ("number", .vstr r.number),
    ("executionDate", .vstr r.executionDate),
    ("expirationDate", .vstr r.expirationDate),
    ("payload", optDump Payload.base r.payload)]

/-- `Vehicle` (data_model.py lines 156-188). -/
structure Vehicle : Type where
  id : Int
  countryCode : String
  plateNumber : String
  type : Option String
  model : Option String
  geolocation : Option (List Geolocation)
  owner : Owner
  insurance : List Insurance
  revision : List Revision
  deriving DecidableEq

/-- Validation of `Vehicle`: nested fields recursively invoke the nested
type's validation, and sub-errors are tagged with the field name. -/
def Vehicle.validate : PyValue → VRes Vehicle
  | .vdict kvs =>
      vapp (vapp (vapp (vapp (vapp (vapp (vapp (vapp (vapp (.ok Vehicle.mk)
        (atField "id" (reqF (intGe 1) (kvs.lookup "id"))))
        (atField "countryCode" (reqF (strShape countryCodeShape) (kvs.lookup "countryCode"))))
        (atField "plateNumber" (reqF (strLen 1 20) (kvs.lookup "plateNumber"))))
        (atField "type" (optF (strLen 1 20) (kvs.lookup "type"))))
        (atField "model" (optF (strLen 1 20) (kvs.lookup "model"))))
        (atField "geolocation" (optF (listF Geolocation.validate) (kvs.lookup "geolocation"))))
        (atField "owner" (reqF Owner.validate (kvs.lookup "owner"))))
        (atField "insurance" (reqF (listF Insurance.validate) (kvs.lookup "insurance"))))
        (atField "revision" (reqF (listF Revision.validate) (kvs.lookup "revision")))
  | _ => .error [⟨[], .typeMismatch⟩]

/-- pydantic python-mode dump of `Vehicle`. -/
def Vehicle.basefields (v : Vehicle) : PyFields :=
  fieldsOf [("id", .vint v.id),
    ("countryCode", .vstr v.countryCode),
    ("plateNumber", .vstr v.plateNumber),
    ("type", optDump .vstr v.type),
    ("model", optDump .vstr v.model),
    ("geolocation", optDump (listDump fun g => .vdict g.basefields) v.geolocation),
    ("owner", .vdict v.owner.basefields),
    ("insurance", listDump (fun i => .vdict i.basefields) v.insurance),
    ("revision", listDump (fun r => .vdict r.basefields) v.revision)]

/-- The driver's-license `Type` enum (data_model.py lines 191-210; named
`LicenseType` here because `Type` is reserved in Lean). -/
inductive LicenseType : Type where
  | AM | A | A1 | A2 | B | BE | B1 | C1 | C1E | C | CE | D1 | D1E | D | DE
  deriving DecidableEq

/-- The `.value` token of each license `Type` member. -/
def LicenseType.value : LicenseType → String
  | .AM => "AM"
  | .A => "A"
  | .A1 => "A1"
  | .A2 => "A2"
  | .B => "B"
  | .BE => "BE"
  | .B1 => "B1"
  | .C1 => "C1"
  | .C1E => "C1E"
  | .C => "C"
  | .CE => "CE"
  | .D1 => "D1"
  | .D1E => "D1E"
  | .D => "D"
  | .DE => "DE"

/-- pydantic enum lookup by value for the license `Type`. -/
def LicenseType.ofString? : String → Option LicenseType
  | "AM" => some .AM
  | "A" => some .A
  | "A1" => some .A1
  | "A2" => some .A2
  | "B" => some .B
  | "BE" => some .BE
  | "B1" => some .B1
  | "C1" => some .C1
  | "C1E" => some .C1E
  | "C" => some .C
  | "CE" => some .CE
  | "D1" => some .D1
  | "D1E" => some .D1E
  | "D" => some .D
  | "DE" => some .DE
  | _ => none

/-- `Status` enum (data_model.py lines 213-223).  Note the member
`LOST_STOLEN` is declared with the value `"LOST/STOLEN"`. -/
inductive Status : Type where
  | VALID | EXPIRED | SUSPENDED | REVOKED | CONFISCATED | LOST_STOLEN
  deriving DecidableEq

/-- The `.value` token of each `Status` member. -/
def Status.value : Status → String
  | .VALID => "VALID"
  | .EXPIRED => "EXPIRED"
  | .SUSPENDED => "SUSPENDED"
  | .REVOKED => "REVOKED"
  | .CONFISCATED => "CONFISCATED"
  | .LOST_STOLEN => "LOST/STOLEN"

/-- pydantic enum lookup by value for `Status`. -/
def Status.ofString? : String → Option Status
  | "VALID" => some .VALID
  | "EXPIRED" => some .EXPIRED
  | "SUSPENDED" => some .SUSPENDED
  | "REVOKED" => some .REVOKED
  | "CONFISCATED" => some .CONFISCATED
  | "LOST/STOLEN" => some .LOST_STOLEN
  | _ => none

/-- The list of all `Status` members, in declaration order. -/
def Status.members : List Status :=
  [.VALID, .EXPIRED, .SUSPENDED, .REVOKED, .CONFISCATED, .LOST_STOLEN]

/-- The declared literal tokens of `Status`, in declaration order. -/
def Status.allTokens : List String := Status.members.map Status.value

/-- `Category` (data_model.py lines 226-260). -/
structure Category : Type where
  type : LicenseType
  description : Option String
  issueDate : String
  expiryDate : String
  status : Status
  code95 : Option String
  deriving DecidableEq

/-- Validation of `Category`. -/
def Category.validate : PyValue → VRes Category
  | .vdict kvs =>
      vapp (vapp (vapp (vapp (vapp (vapp (.ok Category.mk)
        (atField "type" (reqF (enumF LicenseType.ofString?) (kvs.lookup "type"))))
        (atField "description" (optF (strLen 1 20) (kvs.lookup "description"))))
        (atField "issueDate" (reqF (strShape dateShape) (kvs.lookup "issueDate"))))
        (atField "expiryDate" (reqF (strShape dateShape) (kvs.lookup "expiryDate"))))
        (atField "status" (reqF (enumF Status.ofString?) (kvs.lookup "status"))))
        (atField "code95" (optF (strLen 1 20) (kvs.lookup "code95")))
  | _ => .error [⟨[], .typeMismatch⟩]

/-- pydantic python-mode dump of `Category` (enums kept as members). -/
def Category.basefields (c : Category) : PyFields :=
  fieldsOf [("type", .venum c.type.value),
    ("description", optDump .vstr c.description),
    ("issueDate", .vstr c.issueDate),
    ("expiryDate", .vstr c.expiryDate),
    ("status", .venum c.status.value),
    ("code95", optDump .vstr c.code95)]

/-- `HandleBaseModel.model_dump` for a `Category`. -/
def Category.model_dump (c : Category) : PyValue :=
  .vdict (process_fields c.basefields)

/-- `License` (data_model.py lines 263-276). -/
structure License : Type where
  id : String
  countryCode : String
  category : List Category
  deriving DecidableEq

/-- Validation of `License`. -/
def License.validate : PyValue → VRes License
  | .vdict kvs =>
      vapp (vapp (vapp (.ok License.mk)
        (atField "id" (reqF (strShape idCodeShape) (kvs.lookup "id"))))
        (atField "countryCode" (reqF (strShape countryCodeShape) (kvs.lookup "countryCode"))))
        (atField "category" (reqF (listF Category.validate) (kvs.lookup "category")))
  | _ => .error [⟨[], .typeMismatch⟩]

/-- pydantic python-mode dump of `License`. -/
def License.basefields (l : License) : PyFields :=
  fieldsOf [("id", .vstr l.id),
    ("countryCode", .vstr l.countryCode),
    ("category", listDump (fun c => .vdict c.basefields) l.category)]

/-- `TrafficViolation` (data_model.py lines 279-315). -/
structure TrafficViolation : Type where
  id : Int
  description : String
  code : String
  countryCode : String
  fine : Option Rat
  paymentDueDate : Option String
  paymentDate : Option String
  isPayed : Option Bool
  validityPoints : Option Int
  payload : Option Payload
  deriving DecidableEq

/-- Validation of `TrafficViolation`. -/
def TrafficViolation.validate : PyValue → VRes TrafficViolation
  | .vdict kvs =>
      vapp (vapp (vapp (vapp (vapp (vapp (vapp (vapp (vapp (vapp (.ok TrafficViolation.mk)
        (atField "id" (reqF (intGe 1) (kvs.lookup "id"))))
        (atField "description" (reqF (strLen 1 100) (kvs.lookup "description"))))
        (atField "code" (reqF (strLen 1 20) (kvs.lookup "code"))))
        (atField "countryCode" (reqF (strShape countryCodeShape) (kvs.lookup "countryCode"))))
        (atField "fine" (optF (numGe 0) (kvs.lookup "fine"))))
        (atField "paymentDueDate" (optF (strShape dateShape) (kvs.lookup "paymentDueDate"))))
        (atField "paymentDate" (optF (strShape dateShape) (kvs.lookup "paymentDate"))))
        (atField "isPayed" (optF boolF (kvs.lookup "isPayed"))))
        (atField "validityPoints" (optF (intGe 0) (kvs.lookup "validityPoints"))))
        (atField "payload" (optF Payload.validate (kvs.lookup "payload")))
  | _ => .error [⟨[], .typeMismatch⟩]

/-- pydantic python-mode dump of `TrafficViolation`. -/
def TrafficViolation.basefields (t : TrafficViolation) : PyFields :=
  fieldsOf [("id", .vint t.id),
    ("description", .vstr t.description),
    ("code", .vstr t.code),
    ("countryCode", .vstr t.countryCode),
    ("fine", optDump .vnum t.fine),
    ("paymentDueDate", optDump .vstr t.paymentDueDate),
    ("paymentDate", optDump .vstr t.paymentDate),
    ("isPayed", optDump .vbool t.isPayed),
    ("validityPoints", optDump .vint t.validityPoints),
    ("payload", optDump Payload.base t.payload)]

/-- `ExceededTimeLimits` (data_model.py lines 318-328). -/
structure ExceededTimeLimits : Type where
  type : Option String
  hours : Int
  minutes : Int
  seconds : Int
  deriving DecidableEq

/-- Validation of `ExceededTimeLimits`. -/
def ExceededTimeLimits.validate : PyValue → VRes ExceededTimeLimits
  | .vdict kvs =>
      vapp (vapp (vapp (vapp (.ok ExceededTimeLimits.mk)
        (atField "type" (optF (strLen 1 20) (kvs.lookup "type"))))
        (atField "hours" (reqF (intGe 0) (kvs.lookup "hours"))))
        (atField "minutes" (reqF (intIn 0 59) (kvs.lookup "minutes"))))
        (atField "seconds" (reqF (intIn 0 59) (kvs.lookup "seconds")))
  | _ => .error [⟨[], .typeMismatch⟩]

/-- pydantic python-mode dump of `ExceededTimeLimits`. -/
def ExceededTimeLimits.basefields (e : ExceededTimeLimits) : PyFields :=
  fieldsOf [("type", optDump .vstr e.type),
    ("hours", .vint e.hours),
    ("minutes", .vint e.minutes),
    ("seconds", .vint e.seconds)]

/-- `DrivingInterval` (data_model.py lines 331-348). -/
structure DrivingInterval : Type where
  startDateTime : String
  endDateTime : String
  etl : Option (List ExceededTimeLimits)
  deriving DecidableEq

/-- Validation of `DrivingInterval`. -/
def DrivingInterval.validate : PyValue → VRes DrivingInterval
  | .vdict kvs =>
      vapp (vapp (vapp (.ok DrivingInterval.mk)
        (atField "startDateTime" (reqF (strShape dateTimeShape) (kvs.lookup "startDateTime"))))
        (atField "endDateTime" (reqF (strShape dateTimeShape) (kvs.lookup "endDateTime"))))
        (atField "etl" (optF (listF ExceededTimeLimits.validate) (kvs.lookup "etl")))
  | _ => .error [⟨[], .typeMismatch⟩]

/-- pydantic python-mode dump of `DrivingInterval`. -/
def DrivingInterval.basefields (d : DrivingInterval) : PyFields :=
  fieldsOf [("startDateTime", .vstr d.startDateTime),
    ("endDateTime", .vstr d.endDateTime),
    ("etl", optDump (listDump fun e => .vdict e.basefields) d.etl)]

/-- `TachographCard` (data_model.py lines 351-363). -/
structure TachographCard : Type where
  id : String
  drivingInterval : List DrivingInterval
  deriving DecidableEq

/-- Validation of `TachographCard`. -/
def TachographCard.validate : PyValue → VRes TachographCard
  | .vdict kvs =>
      vapp (vapp (.ok TachographCard.mk)
        (atField "id" (reqF (strShape idCodeShape) (kvs.lookup "id"))))
        (atField "drivingInterval" (reqF (listF DrivingInterval.validate) (kvs.lookup "drivingInterval")))
  | _ => .error [⟨[], .typeMismatch⟩]

/-- pydantic python-mode dump of `TachographCard`. -/
def TachographCard.basefields (t : TachographCard) : PyFields :=
  fieldsOf [("id", .vstr t.id),
    ("drivingInterval", listDump (fun d => .vdict d.basefields) t.drivingInterval)]

/-- `Driver` (data_model.py lines 366-392). -/
structure Driver : Type where
  id : Int
  firstName : String
  lastName : String
  countryCode : String
  vat : String
  license : License
  trafficViolation : Option (List TrafficViolation)
  tachographCard : Option (List TachographCard)
  deriving DecidableEq

/-- Validation of `Driver`. -/
def Driver.validate : PyValue → VRes Driver
  | .vdict kvs =>
      vapp (vapp (vapp (vapp (vapp (vapp (vapp (vapp (.ok Driver.mk)
        (atField "id" (reqF (intGe 1) (kvs.lookup "id"))))
        (atField "firstName" (reqF (strLen 1 20) (kvs.lookup "firstName"))))
        (atField "lastName" (reqF (strLen 1 20) (kvs.lookup "lastName"))))
        (atField "countryCode" (reqF (strShape countryCodeShape) (kvs.lookup "countryCode"))))
        (atField "vat" (reqF (strLen 2 13) (kvs.lookup "vat"))))
        (atField "license" (reqF License.validate (kvs.lookup "license"))))
        (atField "trafficViolation" (optF (listF TrafficViolation.validate) (kvs.lookup "trafficViolation"))))
        (atField "tachographCard" (optF (listF TachographCard.validate) (kvs.lookup "tachographCard")))
  | _ => .error [⟨[], .typeMismatch⟩]

/-- pydantic python-mode dump of `Driver`. -/
def Driver.basefields (d : Driver) : PyFields :=
  fieldsOf [("id", .vint d.id),
    ("firstName", .vstr d.firstName),
    ("lastName", .vstr d.lastName),
    ("countryCode", .vstr d.countryCode),
    ("vat", .vstr d.vat),
    ("license", .vdict d.license.basefields),
    ("trafficViolation", optDump (listDump fun t => .vdict t.basefields) d.trafficViolation),
    ("tachographCard", optDump (listDump fun t => .vdict t.basefields) d.tachographCard)]

/-- `State` enum (data_model.py lines 395-409). -/
inductive State : Type where
  | PLANNING | IN_PROGRESS | ARRIVED_AT_PICKUP | ARRIVED_AT_DESTINATION
  | LOADING | UNLOADING | IN_TRANSIT | COMPLETED | DELAYED | CANCELED
  deriving DecidableEq

/-- The `.value` token of each `State` member. -/
def State.value : State → String
  | .PLANNING => "PLANNING"
  | .IN_PROGRESS => "IN_PROGRESS"
  | .ARRIVED_AT_PICKUP => "ARRIVED_AT_PICKUP"
  | .ARRIVED_AT_DESTINATION => "ARRIVED_AT_DESTINATION"
  | .LOADING => "LOADING"
  | .UNLOADING => "UNLOADING"
  | .IN_TRANSIT => "IN_TRANSIT"
  | .COMPLETED => "COMPLETED"
  | .DELAYED => "DELAYED"
  | .CANCELED => "CANCELED"

/-- pydantic enum lookup by value for `State`. -/
def State.ofString? : String → Option State
  | "PLANNING" => some .PLANNING
  | "IN_PROGRESS" => some .IN_PROGRESS
  | "ARRIVED_AT_PICKUP" => some .ARRIVED_AT_PICKUP
  | "ARRIVED_AT_DESTINATION" => some .ARRIVED_AT_DESTINATION
  | "LOADING" => some .LOADING
  | "UNLOADING" => some .UNLOADING
  | "IN_TRANSIT" => some .IN_TRANSIT
  | "COMPLETED" => some .COMPLETED
  | "DELAYED" => some .DELAYED
  | "CANCELED" => some .CANCELED
  | _ => none

/-- `Phase` (data_model.py lines 412-430). -/
structure Phase : Type where
  id : Int
  location : Location
  dateTime : String
  state : State
  payload : Option Payload
  deriving DecidableEq

/-- Validation of `Phase`. -/
def Phase.validate : PyValue → VRes Phase
  | .vdict kvs =>
      vapp (vapp (vapp (vapp (vapp (.ok Phase.mk)
        (atField "id" (reqF (intGe 1) (kvs.lookup "id"))))
        (atField "location" (reqF Location.validate (kvs.lookup "location"))))
        (atField "dateTime" (reqF (strShape dateTimeShape) (kvs.lookup "dateTime"))))
        (atField "state" (reqF (enumF State.ofString?) (kvs.lookup "state"))))
        (atField "payload" (optF Payload.validate (kvs.lookup "payload")))
  | _ => .error [⟨[], .typeMismatch⟩]

/-- pydantic python-mode dump of `Phase`. -/
def Phase.basefields (p : Phase) : PyFields :=
  fieldsOf [("id", .vint p.id),
    ("location", .vdict p.location.basefields),
    ("dateTime", .vstr p.dateTime),
    ("state", .venum p.state.value),
    ("payload", optDump Payload.base p.payload)]

/-- `OrganizationType` enum (data_model.py lines 433-439). -/
inductive OrganizationType : Type where
  | OPERATOR | CUSTOMER
  deriving DecidableEq

/-- The `.value` token of each `OrganizationType` member. -/
def OrganizationType.value : OrganizationType → String
  | .OPERATOR => "OPERATOR"
  | .CUSTOMER => "CUSTOMER"

/-- pydantic enum lookup by value for `OrganizationType`. -/
def OrganizationType.ofString? : String → Option OrganizationType
  | "OPERATOR" => some .OPERATOR
  | "CUSTOMER" => some .CUSTOMER
  | _ => none

/-- `Organization` (data_model.py lines 442-463). -/
structure Organization : Type where
  id : Int
  name : String
  countryCode : String
  type : OrganizationType
  vat : Option String
  address : Option String
  deriving DecidableEq

/-- Validation of `Organization`. -/
def Organization.validate : PyValue → VRes Organization
  | .vdict kvs =>
      vapp (vapp (vapp (vapp (vapp (vapp (.ok Organization.mk)
        (atField "id" (reqF (intGe 1) (kvs.lookup "id"))))
        (atField "name" (reqF (strLen 1 20) (kvs.lookup "name"))))
        (atField "countryCode" (reqF (strShape countryCodeShape) (kvs.lookup "countryCode"))))
        (atField "type" (reqF (enumF OrganizationType.ofString?) (kvs.lookup "type"))))
        (atField "vat" (optF (strLen 2 13) (kvs.lookup "vat"))))
        (atField "address" (optF (strLen 1 100) (kvs.lookup "address")))
  | _ => .error [⟨[], .typeMismatch⟩]

/-- pydantic python-mode dump of `Organization`. -/
def Organization.basefields (o : Organization) : PyFields :=
  fieldsOf [("id", .vint o.id),
    ("name", .vstr o.name),
    ("countryCode", .vstr o.countryCode),
    ("type", .venum o.type.value),
    ("vat", optDump .vstr o.vat),
    ("address", optDump .vstr o.address)]

/-- `Schedule` (data_model.py lines 466-490). -/
structure Schedule : Type where
  departureDateTime : String
  realDepartureDateTime : Option String
  estimatedDateTimeOfArrival : String
  realArrivalDateTime : Option String
  deriving DecidableEq

/-- Validation of `Schedule`. -/
def Schedule.validate : PyValue → VRes Schedule
  | .vdict kvs =>
      vapp (vapp (vapp (vapp (.ok Schedule.mk)
        (atField "departureDateTime" (reqF (strShape dateTimeShape) (kvs.lookup "departureDateTime"))))
        (atField "realDepartureDateTime" (optF (strShape dateTimeShape) (kvs.lookup "realDepartureDateTime"))))
        (atField "estimatedDateTimeOfArrival" (reqF (strShape dateTimeShape) (kvs.lookup "estimatedDateTimeOfArrival"))))
        (atField "realArrivalDateTime" (optF (strShape dateTimeShape) (kvs.lookup "realArrivalDateTime")))
  | _ => .error [⟨[], .typeMismatch⟩]

/-- pydantic python-mode dump of `Schedule`. -/
def Schedule.basefields (s : Schedule) : PyFields :=
  fieldsOf [("departureDateTime", .vstr s.departureDateTime),
    ("realDepartureDateTime", optDump .vstr s.realDepartureDateTime),
    ("estimatedDateTimeOfArrival", .vstr s.estimatedDateTimeOfArrival),
    ("realArrivalDateTime", optDump .vstr s.realArrivalDateTime)]

/-- `Component` (data_model.py lines 493-513). -/
structure Component : Type where
  type : String
  description : Option String
  width : Rat
  height : Rat
  depth : Rat
  unitary : Bool
  um : String
  deriving DecidableEq

/-- Validation of `Component`. -/
def Component.validate : PyValue → VRes Component
  | .vdict kvs =>
      vapp (vapp (vapp (vapp (vapp (vapp (vapp (.ok Component.mk)
        (atField "type" (reqF (strLen 1 20) (kvs.lookup "type"))))
        (atField "description" (optF (strLen 1 100) (kvs.lookup "description"))))
        (atField "width" (reqF (numGe 0) (kvs.lookup "width"))))
        (atField "height" (reqF (numGe 0) (kvs.lookup "height"))))
        (atField "depth" (reqF (numGe 0) (kvs.lookup "depth"))))
        (atField "unitary" (reqF boolF (kvs.lookup "unitary"))))
        (atField "um" (reqF (strLen 1 20) (kvs.lookup "um")))
  | _ => .error [⟨[], .typeMismatch⟩]

/-- pydantic python-mode dump of `Component`. -/
def Component.basefields (c : Component) : PyFields :=
  fieldsOf [("type", .vstr c.type),
    ("description", optDump .vstr c.description),
    ("width", .vnum c.width),
    ("height", .vnum c.height),
    ("depth", .vnum c.depth),
    ("unitary", .vbool c.unitary),
    ("um", .vstr c.um)]

/-- `Load` (data_model.py lines 516-534). -/
structure Load : Type where
  type : String
  description : Option String
  weight : Rat
  umWeight : String
  component : List Component
  deriving DecidableEq

/-- Validation of `Load`. -/
def Load.validate : PyValue → VRes Load
  | .vdict kvs =>
      vapp (vapp (vapp (vapp (vapp (.ok Load.mk)
        (atField "type" (reqF (strLen 1 20) (kvs.lookup "type"))))
        (atField "description" (optF (strLen 1 100) (kvs.lookup "description"))))
        (atField "weight" (reqF (numGe 0) (kvs.lookup "weight"))))
        (atField "umWeight" (reqF (strLen 1 20) (kvs.lookup "umWeight"))))
        (atField "component" (reqF (listF Component.validate) (kvs.lookup "component")))
  | _ => .error [⟨[], .typeMismatch⟩]

/-- pydantic python-mode dump of `Load`. -/
def Load.basefields (l : Load) : PyFields :=
  fieldsOf [("type", .vstr l.type),
    ("description", optDump .vstr l.description),
    ("weight", .vnum l.weight),
    ("umWeight", .vstr l.umWeight),
    ("component", listDump (fun c => .vdict c.basefields) l.component)]

/-- `Document` (data_model.py lines 537-565). -/
structure Document : Type where
  referenceCode : String
  senderOrganization : Organization
  receiverOrganization : Organization
  startingPoint : Location
  endingPoint : Location
  load : Load
  report : Option String
  payload : Option Payload
  deriving DecidableEq

/-- Validation of `Document`. -/
def Document.validate : PyValue → VRes Document
  | .vdict kvs =>
      vapp (vapp (vapp (vapp (vapp (vapp (vapp (vapp (.ok Document.mk)
        (atField "referenceCode" (reqF (strLen 1 20) (kvs.lookup "referenceCode"))))
        (atField "senderOrganization" (reqF Organization.validate (kvs.lookup "senderOrganization"))))
        (atField "receiverOrganization" (reqF Organization.validate (kvs.lookup "receiverOrganization"))))
        (atField "startingPoint" (reqF Location.validate (kvs.lookup "startingPoint"))))
        (atField "endingPoint" (reqF Location.validate (kvs.lookup "endingPoint"))))
        (atField "load" (reqF Load.validate (kvs.lookup "load"))))
        (atField "report" (optF strAny (kvs.lookup "report"))))
        (atField "payload" (optF Payload.validate (kvs.lookup "payload")))
  | _ => .error [⟨[], .typeMismatch⟩]

/-- pydantic python-mode dump of `Document`. -/
def Document.basefields (d : Document) : PyFields :=
  fieldsOf [("referenceCode", .vstr d.referenceCode),
    ("senderOrganization", .vdict d.senderOrganization.basefields),
    ("receiverOrganization", .vdict d.receiverOrganization.basefields),
    ("startingPoint", .vdict d.startingPoint.basefields),
    ("endingPoint", .vdict d.endingPoint.basefields),
    ("load", .vdict d.load.basefields),
    ("report", optDump .vstr d.report),
    ("payload", optDump Payload.base d.payload)]

/-! ## ecmr.py — the eCMR sub-schema -/

/-- `Literal[...]`-typed field: the string must be one of the listed
tokens. -/
def litIn (toks : List String) : PyValue → VRes String
  | .vstr s => if s ∈ toks then .ok s else .error [⟨[], .enumViolation⟩]
  | _ => .error [⟨[], .enumViolation⟩]

/-- `CarrierContactInformation` (ecmr.py lines 17-28). -/
structure CarrierContactInformation : Type where
  email : Option String
  carrierPhone : Option String
  driverPhone : Option String
  deriving DecidableEq

/-- Validation of `CarrierContactInformation`. -/
def CarrierContactInformation.validate : PyValue → VRes CarrierContactInformation
  | .vdict kvs =>
      vapp (vapp (vapp (.ok CarrierContactInformation.mk)
        (atField "email" (optF (strLen 0 255) (kvs.lookup "email"))))
        (atField "carrierPhone" (optF (strShape phoneShape) (kvs.lookup "carrierPhone"))))
        (atField "driverPhone" (optF (strShape phoneShape) (kvs.lookup "driverPhone")))
  | _ => .error [⟨[], .typeMismatch⟩]

/-- pydantic python-mode dump of `CarrierContactInformation`. -/
def CarrierContactInformation.basefields (c : CarrierContactInformation) : PyFields :=
  fieldsOf [("email", optDump .vstr c.email),
    ("carrierPhone", optDump .vstr c.carrierPhone),
    ("driverPhone", optDump .vstr c.driverPhone)]

/-- `CarrierCountryCode` (ecmr.py lines 31-37). -/
structure CarrierCountryCode : Type where
  region : Option String
  value : Option String
  deriving DecidableEq

/-- Validation of `CarrierCountryCode`. -/
def CarrierCountryCode.validate : PyValue → VRes CarrierCountryCode
  | .vdict kvs =>
      vapp (vapp (.ok CarrierCountryCode.mk)
        (atField "region" (optF (strLen 2 60) (kvs.lookup "region"))))
        (atField "value" (optF (strLenShape 2 2 cc2Shape) (kvs.lookup "value")))
  | _ => .error [⟨[], .typeMismatch⟩]

/-- pydantic python-mode dump of `CarrierCountryCode`. -/
def CarrierCountryCode.basefields (c : CarrierCountryCode) : PyFields :=
  fieldsOf [("region", optDump .vstr c.region), ("value", optDump .vstr c.value)]

/-- `CarrierInformation` (ecmr.py lines 40-50). -/
structure CarrierInformation : Type where
  carrierCompanyName : Option String
  carrierDriverName : Option String
  carrierStreet : Option String
  carrierPostcode : Option String
  carrierCity : Option String
  carrierCountryCode : Option CarrierCountryCode
  carrierLicensePlate : Option String
  carrierContactInformation : Option CarrierContactInformation
  deriving DecidableEq

/-- Validation of `CarrierInformation`. -/
def CarrierInformation.validate : PyValue → VRes CarrierInformation
  | .vdict kvs =>
      vapp (vapp (vapp (vapp (vapp (vapp (vapp (vapp (.ok CarrierInformation.mk)
        (atField "carrierCompanyName" (optF strAny (kvs.lookup "carrierCompanyName"))))
        (atField "carrierDriverName" (optF (strLen 2 60) (kvs.lookup "carrierDriverName"))))
        (atField "carrierStreet" (optF (strLen 2 255) (kvs.lookup "carrierStreet"))))
        (atField "carrierPostcode" (optF (strLen 2 17) (kvs.lookup "carrierPostcode"))))
        (atField "carrierCity" (optF (strLen 2 60) (kvs.lookup "carrierCity"))))
        (atField "carrierCountryCode" (optF CarrierCountryCode.validate (kvs.lookup "carrierCountryCode"))))
        (atField "carrierLicensePlate" (optF (strLen 2 30) (kvs.lookup "carrierLicensePlate"))))
        (atField "carrierContactInformation" (optF CarrierContactInformation.validate (kvs.lookup "carrierContactInformation")))
  | _ => .error [⟨[], .typeMismatch⟩]

/-- pydantic python-mode dump of `CarrierInformation`. -/
def CarrierInformation.basefields (c : CarrierInformation) : PyFields :=
  fieldsOf [("carrierCompanyName", optDump .vstr c.carrierCompanyName),
    ("carrierDriverName", optDump .vstr c.carrierDriverName),
    ("carrierStreet", optDump .vstr c.carrierStreet),
    ("carrierPostcode", optDump .vstr c.carrierPostcode),
    ("carrierCity", optDump .vstr c.carrierCity),
    ("carrierCountryCode", optDump (fun x => .vdict x.basefields) c.carrierCountryCode),
    ("carrierLicensePlate", optDump .vstr c.carrierLicensePlate),
    ("carrierContactInformation", optDump (fun x => .vdict x.basefields) c.carrierContactInformation)]

/-- `Signature` (ecmr.py lines 53-64). -/
structure Signature : Type where
  type : Option String
  userName : Option String
  userCompany : Option String
  userStreet : Option String
  userPostCode : Option String
  userCity : Option String
  userCountry : Option String
  timestamp : Option String
  data : Option String
  deriving DecidableEq

/-- Validation of `Signature`. -/
def Signature.validate : PyValue → VRes Signature
  | .vdict kvs =>
      vapp (vapp (vapp (vapp (vapp (vapp (vapp (vapp (vapp (.ok Signature.mk)
        (atField "type" (optF strAny (kvs.lookup "type"))))
        (atField "userName" (optF strAny (kvs.lookup "userName"))))
        (atField "userCompany" (optF strAny (kvs.lookup "userCompany"))))
        (atField "userStreet" (optF strAny (kvs.lookup "userStreet"))))
        (atField "userPostCode" (optF strAny (kvs.lookup "userPostCode"))))
        (atField "userCity" (optF strAny (kvs.lookup "userCity"))))
        (atField "userCountry" (optF strAny (kvs.lookup "userCountry"))))
        (atField "timestamp" (optF dtF (kvs.lookup "timestamp"))))
        (atField "data" (optF strAny (kvs.lookup "data")))
  | _ => .error [⟨[], .typeMismatch⟩]

/-- pydantic python-mode dump of `Signature`. -/
def Signature.basefields (s : Signature) : PyFields :=
  fieldsOf [("type", optDump .vstr s.type),
    ("userName", optDump .vstr s.userName),
    ("userCompany", optDump .vstr s.userCompany),
    ("userStreet", optDump .vstr s.userStreet),
    ("userPostCode", optDump .vstr s.userPostCode),
    ("userCity", optDump .vstr s.userCity),
    ("userCountry", optDump .vstr s.userCountry),
    ("timestamp", optDump .vstr s.timestamp),
    ("data", optDump .vstr s.data)]

/-- `CarriersReservationsAndObservationsOnTakingOverTheGoods`
(ecmr.py lines 67-73). -/
structure CarriersReservationsAndObservationsOnTakingOverTheGoods : Type where
  carrierReservationsObservations : Option String
  senderReservationsObservationsSignature : Option Signature
  deriving DecidableEq

/-- Validation of
`CarriersReservationsAndObservationsOnTakingOverTheGoods`. -/
def CarriersReservationsAndObservationsOnTakingOverTheGoods.validate :
    PyValue → VRes CarriersReservationsAndObservationsOnTakingOverTheGoods
  | .vdict kvs =>
      vapp (vapp (.ok CarriersReservationsAndObservationsOnTakingOverTheGoods.mk)
        (atField "carrierReservationsObservations" (optF (strLen 2 512) (kvs.lookup "carrierReservationsObservations"))))
        (atField "senderReservationsObservationsSignature" (optF Signature.validate (kvs.lookup "senderReservationsObservationsSignature")))
  | _ => .error [⟨[], .typeMismatch⟩]

/-- pydantic python-mode dump of
`CarriersReservationsAndObservationsOnTakingOverTheGoods`. -/
def CarriersReservationsAndObservationsOnTakingOverTheGoods.basefields
    (c : CarriersReservationsAndObservationsOnTakingOverTheGoods) : PyFields :=
  fieldsOf [("carrierReservationsObservations", optDump .vstr c.carrierReservationsObservations),
    ("senderReservationsObservationsSignature", optDump (fun s => .vdict s.basefields) c.senderReservationsObservationsSignature)]

/-- `CashOnDelivery` (ecmr.py lines 76-79). -/
structure CashOnDelivery : Type where
  customCashOnDelivery : Option Rat
  deriving DecidableEq

/-- Validation of `CashOnDelivery`. -/
def CashOnDelivery.validate : PyValue → VRes CashOnDelivery
  | .vdict kvs =>
      vapp (.ok CashOnDelivery.mk)
        (atField "customCashOnDelivery" (optF (numIn 0 999999) (kvs.lookup "customCashOnDelivery")))
  | _ => .error [⟨[], .typeMismatch⟩]

/-- pydantic python-mode dump of `CashOnDelivery`. -/
def CashOnDelivery.basefields (c : CashOnDelivery) : PyFields :=
  fieldsOf [("customCashOnDelivery", optDump .vnum c.customCashOnDelivery)]

/-- `ConsigneeContactInformation` (ecmr.py lines 82-89). -/
structure ConsigneeContactInformation : Type where
  email : Option String
  phone : Option String
  deriving DecidableEq

/-- Validation of `ConsigneeContactInformation`. -/
def ConsigneeContactInformation.validate : PyValue → VRes ConsigneeContactInformation
  | .vdict kvs =>
      vapp (vapp (.ok ConsigneeContactInformation.mk)
        (atField "email" (optF (strLen 0 255) (kvs.lookup "email"))))
        (atField "phone" (optF (strShape phoneShape) (kvs.lookup "phone")))
  | _ => .error [⟨[], .typeMismatch⟩]

/-- pydantic python-mode dump of `ConsigneeContactInformation`. -/
def ConsigneeContactInformation.basefields (c : ConsigneeContactInformation) : PyFields :=
  fieldsOf [("email", optDump .vstr c.email), ("phone", optDump .vstr c.phone)]

/-- `ConsigneeCountryCode` (ecmr.py lines 92-98). -/
structure ConsigneeCountryCode : Type where
  region : Option String
  value : Option String
  deriving DecidableEq

/-- Validation of `ConsigneeCountryCode`. -/
def ConsigneeCountryCode.validate : PyValue → VRes ConsigneeCountryCode
  | .vdict kvs =>
      vapp (vapp (.ok ConsigneeCountryCode.mk)
        (atField "region" (optF (strLen 2 60) (kvs.lookup "region"))))
        (atField "value" (optF (strLenShape 2 2 cc2Shape) (kvs.lookup "value")))
  | _ => .error [⟨[], .typeMismatch⟩]

/-- pydantic python-mode dump of `ConsigneeCountryCode`. -/
def ConsigneeCountryCode.basefields (c : ConsigneeCountryCode) : PyFields :=
  fieldsOf [("region", optDump .vstr c.region), ("value", optDump .vstr c.value)]

/-- `ConsigneeInformation` (ecmr.py lines 101-110). -/
structure ConsigneeInformation : Type where
  consigneeCompanyName : Option String
  consigneePersonName : Option String
  consigneePostcode : Option String
  consigneeCity : Option String
  consigneeCountryCode : Option ConsigneeCountryCode
  consigneeStreet : Option String
  consigneeContactInformation : Option ConsigneeContactInformation
  deriving DecidableEq

/-- Validation of `ConsigneeInformation`. -/
def ConsigneeInformation.validate : PyValue → VRes ConsigneeInformation
  | .vdict kvs =>
      vapp (vapp (vapp (vapp (vapp (vapp (vapp (.ok ConsigneeInformation.mk)
        (atField "consigneeCompanyName" (optF strAny (kvs.lookup "consigneeCompanyName"))))
        (atField "consigneePersonName" (optF (strLen 2 60) (kvs.lookup "consigneePersonName"))))
        (atField "consigneePostcode" (optF (strLen 2 17) (kvs.lookup "consigneePostcode"))))
        (atField "consigneeCity" (optF (strLen 2 60) (kvs.lookup "consigneeCity"))))
        (atField "consigneeCountryCode" (optF ConsigneeCountryCode.validate (kvs.lookup "consigneeCountryCode"))))
        (atField "consigneeStreet" (optF (strLen 2 255) (kvs.lookup "consigneeStreet"))))
        (atField "consigneeContactInformation" (optF ConsigneeContactInformation.validate (kvs.lookup "consigneeContactInformation")))
  | _ => .error [⟨[], .typeMismatch⟩]

/-- pydantic python-mode dump of `ConsigneeInformation`. -/
def ConsigneeInformation.basefields (c : ConsigneeInformation) : PyFields :=
  fieldsOf [("consigneeCompanyName", optDump .vstr c.consigneeCompanyName),
    ("consigneePersonName", optDump .vstr c.consigneePersonName),
    ("consigneePostcode", optDump .vstr c.consigneePostcode),
    ("consigneeCity", optDump .vstr c.consigneeCity),
    ("consigneeCountryCode", optDump (fun x => .vdict x.basefields) c.consigneeCountryCode),
    ("consigneeStreet", optDump .vstr c.consigneeStreet),
    ("consigneeContactInformation", optDump (fun x => .vdict x.basefields) c.consigneeContactInformation)]

/-- `CustomCharge` (ecmr.py lines 113-118). -/
structure CustomCharge : Type where
  value : Option Rat
  currency : Option String
  payer : Option String
  deriving DecidableEq

/-- Validation of `CustomCharge` (`payer` is
`Literal["SENDER", "CONSIGNEE"]`). -/
def CustomCharge.validate : PyValue → VRes CustomCharge
  | .vdict kvs =>
      vapp (vapp (vapp (.ok CustomCharge.mk)
        (atField "value" (optF (numIn 0 99999) (kvs.lookup "value"))))
        (atField "currency" (optF (strLen 2 512) (kvs.lookup "currency"))))
        (atField "payer" (optF (litIn ["SENDER", "CONSIGNEE"]) (kvs.lookup "payer")))
  | _ => .error [⟨[], .typeMismatch⟩]

/-- pydantic python-mode dump of `CustomCharge`. -/
def CustomCharge.basefields (c : CustomCharge) : PyFields :=
  fieldsOf [("value", optDump .vnum c.value),
    ("currency", optDump .vstr c.currency),
    ("payer", optDump .vstr c.payer)]

/-- `DeliveryOfTheGoods` (ecmr.py lines 121-127). -/
structure DeliveryOfTheGoods : Type where
  logisticsLocationCity : Option String
  logisticsLocationOpeningHours : Option String
  deriving DecidableEq

/-- Validation of `DeliveryOfTheGoods`. -/
def DeliveryOfTheGoods.validate : PyValue → VRes DeliveryOfTheGoods
  | .vdict kvs =>
      vapp (vapp (.ok DeliveryOfTheGoods.mk)
        (atField "logisticsLocationCity" (optF (strLen 2 60) (kvs.lookup "logisticsLocationCity"))))
        (atField "logisticsLocationOpeningHours" (optF (strLen 2 255) (kvs.lookup "logisticsLocationOpeningHours")))
  | _ => .error [⟨[], .typeMismatch⟩]

/-- pydantic python-mode dump of `DeliveryOfTheGoods`. -/
def DeliveryOfTheGoods.basefields (d : DeliveryOfTheGoods) : PyFields :=
  fieldsOf [("logisticsLocationCity", optDump .vstr d.logisticsLocationCity),
    ("logisticsLocationOpeningHours", optDump .vstr d.logisticsLocationOpeningHours)]

/-- `DocumentsHandedToCarrier` (ecmr.py lines 130-133). -/
structure DocumentsHandedToCarrier : Type where
  documentsRemarks : Option String
  deriving DecidableEq

/-- Validation of `DocumentsHandedToCarrier`. -/
def DocumentsHandedToCarrier.validate : PyValue → VRes DocumentsHandedToCarrier
  | .vdict kvs =>
      vapp (.ok DocumentsHandedToCarrier.mk)
        (atField "documentsRemarks" (optF (strLen 2 512) (kvs.lookup "documentsRemarks")))
  | _ => .error [⟨[], .typeMismatch⟩]

/-- pydantic python-mode dump of `DocumentsHandedToCarrier`. -/
def DocumentsHandedToCarrier.basefields (d : DocumentsHandedToCarrier) : PyFields :=
  fieldsOf [("documentsRemarks", optDump .vstr d.documentsRemarks)]

/-- `Established` (ecmr.py lines 136-140). -/
structure Established : Type where
  customEstablishedDate : Option String
  customEstablishedIn : Option String
  deriving DecidableEq

/-- Validation of `Established`. -/
def Established.validate : PyValue → VRes Established
  | .vdict kvs =>
      vapp (vapp (.ok Established.mk)
        (atField "customEstablishedDate" (optF dtF (kvs.lookup "customEstablishedDate"))))
        (atField "customEstablishedIn" (optF (strLen 2 30) (kvs.lookup "customEstablishedIn")))
  | _ => .error [⟨[], .typeMismatch⟩]

/-- pydantic python-mode dump of `Established`. -/
def Established.basefields (e : Established) : PyFields :=
  fieldsOf [("customEstablishedDate", optDump .vstr e.customEstablishedDate),
    ("customEstablishedIn", optDump .vstr e.customEstablishedIn)]

/-- `GoodsReceived` (ecmr.py lines 143-155). -/
structure GoodsReceived : Type where
  confirmedLogisticsLocationName : Option String
  consigneeReservationsObservations : Option String
  consigneeSignature : Option Signature
  consigneeSignatureDate : Option String
  consigneeTimeOfArrival : Option String
  consigneeTimeOfDeparture : Option String
  deriving DecidableEq

/-- Validation of `GoodsReceived`. -/
def GoodsReceived.validate : PyValue → VRes GoodsReceived
  | .vdict kvs =>
      vapp (vapp (vapp (vapp (vapp (vapp (.ok GoodsReceived.mk)
        (atField "confirmedLogisticsLocationName" (optF (strLen 2 60) (kvs.lookup "confirmedLogisticsLocationName"))))
        (atField "consigneeReservationsObservations" (optF (strLen 2 512) (kvs.lookup "consigneeReservationsObservations"))))
        (atField "consigneeSignature" (optF Signature.validate (kvs.lookup "consigneeSignature"))))
        (atField "consigneeSignatureDate" (optF dtF (kvs.lookup "consigneeSignatureDate"))))
        (atField "consigneeTimeOfArrival" (optF dtF (kvs.lookup "consigneeTimeOfArrival"))))
        (atField "consigneeTimeOfDeparture" (optF dtF (kvs.lookup "consigneeTimeOfDeparture")))
  | _ => .error [⟨[], .typeMismatch⟩]

/-- pydantic python-mode dump of `GoodsReceived`. -/
def GoodsReceived.basefields (g : GoodsReceived) : PyFields :=
  fieldsOf [("confirmedLogisticsLocationName", optDump .vstr g.confirmedLogisticsLocationName),
    ("consigneeReservationsObservations", optDump .vstr g.consigneeReservationsObservations),
    ("consigneeSignature", optDump (fun s => .vdict s.basefields) g.consigneeSignature),
    ("consigneeSignatureDate", optDump .vstr g.consigneeSignatureDate),
    ("consigneeTimeOfArrival", optDump .vstr g.consigneeTimeOfArrival),
    ("consigneeTimeOfDeparture", optDump .vstr g.consigneeTimeOfDeparture)]

/-- `GrossWeightInKg` (ecmr.py lines 158-161). -/
structure GrossWeightInKg : Type where
  supplyChainConsignmentItemGrossWeight : Option Rat
  deriving DecidableEq

/-- Validation of `GrossWeightInKg`. -/
def GrossWeightInKg.validate : PyValue → VRes GrossWeightInKg
  | .vdict kvs =>
      vapp (.ok GrossWeightInKg.mk)
        (atField "supplyChainConsignmentItemGrossWeight" (optF (numIn 0 99999) (kvs.lookup "supplyChainConsignmentItemGrossWeight")))
  | _ => .error [⟨[], .typeMismatch⟩]

/-- pydantic python-mode dump of `GrossWeightInKg`. -/
def GrossWeightInKg.basefields (g : GrossWeightInKg) : PyFields :=
  fieldsOf [("supplyChainConsignmentItemGrossWeight", optDump .vnum g.supplyChainConsignmentItemGrossWeight)]

/-- `LogisticsShippingMarksCustomBarcode` (ecmr.py lines 164-167). -/
structure LogisticsShippingMarksCustomBarcode : Type where
  barcode : Option String
  deriving DecidableEq

/-- Validation of `LogisticsShippingMarksCustomBarcode`. -/
def LogisticsShippingMarksCustomBarcode.validate : PyValue → VRes LogisticsShippingMarksCustomBarcode
  | .vdict kvs =>
      vapp (.ok LogisticsShippingMarksCustomBarcode.mk)
        (atField "barcode" (optF (strLen 2 35) (kvs.lookup "barcode")))
  | _ => .error [⟨[], .typeMismatch⟩]

/-- pydantic python-mode dump of `LogisticsShippingMarksCustomBarcode`. -/
def LogisticsShippingMarksCustomBarcode.basefields
    (l : LogisticsShippingMarksCustomBarcode) : PyFields :=
  fieldsOf [("barcode", optDump .vstr l.barcode)]

/-- `MarksAndNos` (ecmr.py lines 170-178). -/
structure MarksAndNos : Type where
  logisticsShippingMarksMarking : Option String
  logisticsShippingMarksCustomBarcodeList : Option (List LogisticsShippingMarksCustomBarcode)
  deriving DecidableEq

/-- Validation of `MarksAndNos` (the barcode list carries
`min_items=0, max_items=32`). -/
def MarksAndNos.validate : PyValue → VRes MarksAndNos
  | .vdict kvs =>
      vapp (vapp (.ok MarksAndNos.mk)
        (atField "logisticsShippingMarksMarking" (optF (strLen 2 512) (kvs.lookup "logisticsShippingMarksMarking"))))
        (atField "logisticsShippingMarksCustomBarcodeList"
          (optF (listBounded 0 32 LogisticsShippingMarksCustomBarcode.validate)
            (kvs.lookup "logisticsShippingMarksCustomBarcodeList")))
  | _ => .error [⟨[], .typeMismatch⟩]

/-- pydantic python-mode dump of `MarksAndNos`. -/
def MarksAndNos.basefields (m : MarksAndNos) : PyFields :=
  fieldsOf [("logisticsShippingMarksMarking", optDump .vstr m.logisticsShippingMarksMarking),
    ("logisticsShippingMarksCustomBarcodeList",
      optDump (listDump fun b => .vdict b.basefields) m.logisticsShippingMarksCustomBarcodeList)]

/-- `MethodOfPacking` (ecmr.py lines 181-184). -/
structure MethodOfPacking : Type where
  logisticsPackageType : Option String
  deriving DecidableEq

/-- Validation of `MethodOfPacking`. -/
def MethodOfPacking.validate : PyValue → VRes MethodOfPacking
  | .vdict kvs =>
      vapp (.ok MethodOfPacking.mk)
        (atField "logisticsPackageType" (optF (strLen 2 35) (kvs.lookup "logisticsPackageType")))
  | _ => .error [⟨[], .typeMismatch⟩]

/-- pydantic python-mode dump of `MethodOfPacking`. -/
def MethodOfPacking.basefields (m : MethodOfPacking) : PyFields :=
  fieldsOf [("logisticsPackageType", optDump .vstr m.logisticsPackageType)]

/-- `MultiConsigneeShipment` (ecmr.py lines 187-190).  Its single field
`isMultiConsigneeShipment : bool` carries no default and is therefore
required. -/
structure MultiConsigneeShipment : Type where
  isMultiConsigneeShipment : Bool
  deriving DecidableEq

/-- Validation of `MultiConsigneeShipment`. -/
def MultiConsigneeShipment.validate : PyValue → VRes MultiConsigneeShipment
  | .vdict kvs =>
      vapp (.ok MultiConsigneeShipment.mk)
        (atField "isMultiConsigneeShipment" (reqF boolF (kvs.lookup "isMultiConsigneeShipment")))
  | _ => .error [⟨[], .typeMismatch⟩]

/-- pydantic python-mode dump of `MultiConsigneeShipment`. -/
def MultiConsigneeShipment.basefields (m : MultiConsigneeShipment) : PyFields :=
  fieldsOf [("isMultiConsigneeShipment", .vbool m.isMultiConsigneeShipment)]

/-- `NatureOfTheGoods` (ecmr.py lines 193-198). -/
structure NatureOfTheGoods : Type where
  transportCargoIdentification : Option String
  deriving DecidableEq

/-- Validation of `NatureOfTheGoods`. -/
def NatureOfTheGoods.validate : PyValue → VRes NatureOfTheGoods
  | .vdict kvs =>
      vapp (.ok NatureOfTheGoods.mk)
        (atField "transportCargoIdentification" (optF (strLen 2 512) (kvs.lookup "transportCargoIdentification")))
  | _ => .error [⟨[], .typeMismatch⟩]

/-- pydantic python-mode dump of `NatureOfTheGoods`. -/
def NatureOfTheGoods.basefields (n : NatureOfTheGoods) : PyFields :=
  fieldsOf [("transportCargoIdentification", optDump .vstr n.transportCargoIdentification)]

/-- `NonContractualPartReservedForTheCarrier` (ecmr.py lines 201-206). -/
structure NonContractualPartReservedForTheCarrier : Type where
  nonContractualCarrierRemarks : Option String
  deriving DecidableEq

/-- Validation of `NonContractualPartReservedForTheCarrier`. -/
def NonContractualPartReservedForTheCarrier.validate :
    PyValue → VRes NonContractualPartReservedForTheCarrier
  | .vdict kvs =>
      vapp (.ok NonContractualPartReservedForTheCarrier.mk)
        (atField "nonContractualCarrierRemarks" (optF (strLen 2 512) (kvs.lookup "nonContractualCarrierRemarks")))
  | _ => .error [⟨[], .typeMismatch⟩]

/-- pydantic python-mode dump of `NonContractualPartReservedForTheCarrier`. -/
def NonContractualPartReservedForTheCarrier.basefields
    (n : NonContractualPartReservedForTheCarrier) : PyFields :=
  fieldsOf [("nonContractualCarrierRemarks", optDump .vstr n.nonContractualCarrierRemarks)]

/-- `NumberOfPackages` (ecmr.py lines 209-212). -/
structure NumberOfPackages : Type where
  logisticsPackageItemQuantity : Option Int
  deriving DecidableEq

/-- Validation of `NumberOfPackages`. -/
def NumberOfPackages.validate : PyValue → VRes NumberOfPackages
  | .vdict kvs =>
      vapp (.ok NumberOfPackages.mk)
        (atField "logisticsPackageItemQuantity" (optF (intIn 0 9999) (kvs.lookup "logisticsPackageItemQuantity")))
  | _ => .error [⟨[], .typeMismatch⟩]

/-- pydantic python-mode dump of `NumberOfPackages`. -/
def NumberOfPackages.basefields (n : NumberOfPackages) : PyFields :=
  fieldsOf [("logisticsPackageItemQuantity", optDump .vint n.logisticsPackageItemQuantity)]

/-- `OtherUsefulParticulars` (ecmr.py lines 215-218). -/
structure OtherUsefulParticulars : Type where
  customParticulars : Option String
  deriving DecidableEq

/-- Validation of `OtherUsefulParticulars`. -/
def OtherUsefulParticulars.validate : PyValue → VRes OtherUsefulParticulars
  | .vdict kvs =>
      vapp (.ok OtherUsefulParticulars.mk)
        (atField "customParticulars" (optF (strLen 2 512) (kvs.lookup "customParticulars")))
  | _ => .error [⟨[], .typeMismatch⟩]

/-- pydantic python-mode dump of `OtherUsefulParticulars`. -/
def OtherUsefulParticulars.basefields (o : OtherUsefulParticulars) : PyFields :=
  fieldsOf [("customParticulars", optDump .vstr o.customParticulars)]

/-- `ReferenceIdentificationNumber` (ecmr.py lines 221-224). -/
structure ReferenceIdentificationNumber : Type where
  value : Option String
  deriving DecidableEq

/-- Validation of `ReferenceIdentificationNumber`. -/
def ReferenceIdentificationNumber.validate : PyValue → VRes ReferenceIdentificationNumber
  | .vdict kvs =>
      vapp (.ok ReferenceIdentificationNumber.mk)
        (atField "value" (optF (strLen 1 35) (kvs.lookup "value")))
  | _ => .error [⟨[], .typeMismatch⟩]

/-- pydantic python-mode dump of `ReferenceIdentificationNumber`. -/
def ReferenceIdentificationNumber.basefields (r : ReferenceIdentificationNumber) : PyFields :=
  fieldsOf [("value", optDump .vstr r.value)]

/-- `SenderContactInformation` (ecmr.py lines 227-234). -/
structure SenderContactInformation : Type where
  email : Option String
  phone : Option String
  deriving DecidableEq

/-- Validation of `SenderContactInformation`. -/
def SenderContactInformation.validate : PyValue → VRes SenderContactInformation
  | .vdict kvs =>
      vapp (vapp (.ok SenderContactInformation.mk)
        (atField "email" (optF (strLen 0 255) (kvs.lookup "email"))))
        (atField "phone" (optF (strShape phoneShape) (kvs.lookup "phone")))
  | _ => .error [⟨[], .typeMismatch⟩]

/-- pydantic python-mode dump of `SenderContactInformation`. -/
def SenderContactInformation.basefields (s : SenderContactInformation) : PyFields :=
  fieldsOf [("email", optDump .vstr s.email), ("phone", optDump .vstr s.phone)]

/-- `SenderCountryCode` (ecmr.py lines 237-243). -/
structure SenderCountryCode : Type where
  region : Option String
  value : Option String
  deriving DecidableEq

/-- Validation of `SenderCountryCode`. -/
def SenderCountryCode.validate : PyValue → VRes SenderCountryCode
  | .vdict kvs =>
      vapp (vapp (.ok SenderCountryCode.mk)
        (atField "region" (optF (strLen 2 60) (kvs.lookup "region"))))
        (atField "value" (optF (strLenShape 2 2 cc2Shape) (kvs.lookup "value")))
  | _ => .error [⟨[], .typeMismatch⟩]

/-- pydantic python-mode dump of `SenderCountryCode`. -/
def SenderCountryCode.basefields (s : SenderCountryCode) : PyFields :=
  fieldsOf [("region", optDump .vstr s.region), ("value", optDump .vstr s.value)]

/-- `SenderInformation` (ecmr.py lines 246-255). -/
structure SenderInformation : Type where
  senderCompanyName : Option String
  senderPersonName : Option String
  senderStreet : Option String
  senderPostcode : Option String
  senderCity : Option String
  senderCountryCode : Option SenderCountryCode
  senderContactInformation : Option SenderContactInformation
  deriving DecidableEq

/-- Validation of `SenderInformation`. -/
def SenderInformation.validate : PyValue → VRes SenderInformation
  | .vdict kvs =>
      vapp (vapp (vapp (vapp (vapp (vapp (vapp (.ok SenderInformation.mk)
        (atField "senderCompanyName" (optF strAny (kvs.lookup "senderCompanyName"))))
        (atField "senderPersonName" (optF (strLen 2 60) (kvs.lookup "senderPersonName"))))
        (atField "senderStreet" (optF (strLen 2 255) (kvs.lookup "senderStreet"))))
        (atField "senderPostcode" (optF (strLen 2 17) (kvs.lookup "senderPostcode"))))
        (atField "senderCity" (optF (strLen 2 60) (kvs.lookup "senderCity"))))
        (atField "senderCountryCode" (optF SenderCountryCode.validate (kvs.lookup "senderCountryCode"))))
        (atField "senderContactInformation" (optF SenderContactInformation.validate (kvs.lookup "senderContactInformation")))
  | _ => .error [⟨[], .typeMismatch⟩]

/-- pydantic python-mode dump of `SenderInformation`. -/
def SenderInformation.basefields (s : SenderInformation) : PyFields :=
  fieldsOf [("senderCompanyName", optDump .vstr s.senderCompanyName),
    ("senderPersonName", optDump .vstr s.senderPersonName),
    ("senderStreet", optDump .vstr s.senderStreet),
    ("senderPostcode", optDump .vstr s.senderPostcode),
    ("senderCity", optDump .vstr s.senderCity),
    ("senderCountryCode", optDump (fun x => .vdict x.basefields) s.senderCountryCode),
    ("senderContactInformation", optDump (fun x => .vdict x.basefields) s.senderContactInformation)]

/-- `SendersInstructions` (ecmr.py lines 258-263). -/
structure SendersInstructions : Type where
  transportInstructionsDescription : Option String
  deriving DecidableEq

/-- Validation of `SendersInstructions`. -/
def SendersInstructions.validate : PyValue → VRes SendersInstructions
  | .vdict kvs =>
      vapp (.ok SendersInstructions.mk)
        (atField "transportInstructionsDescription" (optF (strLen 2 512) (kvs.lookup "transportInstructionsDescription")))
  | _ => .error [⟨[], .typeMismatch⟩]

/-- pydantic python-mode dump of `SendersInstructions`. -/
def SendersInstructions.basefields (s : SendersInstructions) : PyFields :=
  fieldsOf [("transportInstructionsDescription", optDump .vstr s.transportInstructionsDescription)]

/-- `SpecialAgreementsSenderCarrier` (ecmr.py lines 266-269). -/
structure SpecialAgreementsSenderCarrier : Type where
  customSpecialAgreement : Option String
  deriving DecidableEq

/-- Validation of `SpecialAgreementsSenderCarrier`. -/
def SpecialAgreementsSenderCarrier.validate : PyValue → VRes SpecialAgreementsSenderCarrier
  | .vdict kvs =>
      vapp (.ok SpecialAgreementsSenderCarrier.mk)
        (atField "customSpecialAgreement" (optF (strLen 2 255) (kvs.lookup "customSpecialAgreement")))
  | _ => .error [⟨[], .typeMismatch⟩]

/-- pydantic python-mode dump of `SpecialAgreementsSenderCarrier`. -/
def SpecialAgreementsSenderCarrier.basefields (s : SpecialAgreementsSenderCarrier) : PyFields :=
  fieldsOf [("customSpecialAgreement", optDump .vstr s.customSpecialAgreement)]

/-- `SuccessiveCarrierContactInformation` (ecmr.py lines 272-283). -/
structure SuccessiveCarrierContactInformation : Type where
  email : Option String
  carrierPhone : Option String
  driverPhone : Option String
  deriving DecidableEq

/-- Validation of `SuccessiveCarrierContactInformation`. -/
def SuccessiveCarrierContactInformation.validate :
    PyValue → VRes SuccessiveCarrierContactInformation
  | .vdict kvs =>
      vapp (vapp (vapp (.ok SuccessiveCarrierContactInformation.mk)
        (atField "email" (optF (strLen 0 255) (kvs.lookup "email"))))
        (atField "carrierPhone" (optF (strShape phoneShape) (kvs.lookup "carrierPhone"))))
        (atField "driverPhone" (optF (strShape phoneShape) (kvs.lookup "driverPhone")))
  | _ => .error [⟨[], .typeMismatch⟩]

/-- pydantic python-mode dump of `SuccessiveCarrierContactInformation`. -/
def SuccessiveCarrierContactInformation.basefields
    (s : SuccessiveCarrierContactInformation) : PyFields :=
  fieldsOf [("email", optDump .vstr s.email),
    ("carrierPhone", optDump .vstr s.carrierPhone),
    ("driverPhone", optDump .vstr s.driverPhone)]

/-- `SuccessiveCarrierCountryCode` (ecmr.py lines 286-292). -/
structure SuccessiveCarrierCountryCode : Type where
  region : Option String
  value : Option String
  deriving DecidableEq

/-- Validation of `SuccessiveCarrierCountryCode`. -/
def SuccessiveCarrierCountryCode.validate : PyValue → VRes SuccessiveCarrierCountryCode
  | .vdict kvs =>
      vapp (vapp (.ok SuccessiveCarrierCountryCode.mk)
        (atField "region" (optF (strLen 2 60) (kvs.lookup "region"))))
        (atField "value" (optF (strLenShape 2 2 cc2Shape) (kvs.lookup "value")))
  | _ => .error [⟨[], .typeMismatch⟩]

/-- pydantic python-mode dump of `SuccessiveCarrierCountryCode`. -/
def SuccessiveCarrierCountryCode.basefields (s : SuccessiveCarrierCountryCode) : PyFields :=
  fieldsOf [("region", optDump .vstr s.region), ("value", optDump .vstr s.value)]

/-- `SuccessiveCarrierInformation` (ecmr.py lines 295-308). -/
structure SuccessiveCarrierInformation : Type where
  successiveCarrierCity : Option String
  successiveCarrierCountryCode : Option SuccessiveCarrierCountryCode
  successiveCarrierCompanyName : Option String
  successiveCarrierDriverName : Option String
  successiveCarrierPostcode : Option String
  successiveCarrierStreet : Option String
  successiveCarrierContactInformation : Option SuccessiveCarrierContactInformation
  deriving DecidableEq

/-- Validation of `SuccessiveCarrierInformation`. -/
def SuccessiveCarrierInformation.validate : PyValue → VRes SuccessiveCarrierInformation
  | .vdict kvs =>
      vapp (vapp (vapp (vapp (vapp (vapp (vapp (.ok SuccessiveCarrierInformation.mk)
        (atField "successiveCarrierCity" (optF (strLen 2 60) (kvs.lookup "successiveCarrierCity"))))
        (atField "successiveCarrierCountryCode" (optF SuccessiveCarrierCountryCode.validate (kvs.lookup "successiveCarrierCountryCode"))))
        (atField "successiveCarrierCompanyName" (optF strAny (kvs.lookup "successiveCarrierCompanyName"))))
        (atField "successiveCarrierDriverName" (optF (strLen 2 60) (kvs.lookup "successiveCarrierDriverName"))))
        (atField "successiveCarrierPostcode" (optF (strLen 2 17) (kvs.lookup "successiveCarrierPostcode"))))
        (atField "successiveCarrierStreet" (optF (strLen 2 255) (kvs.lookup "successiveCarrierStreet"))))
        (atField "successiveCarrierContactInformation" (optF SuccessiveCarrierContactInformation.validate (kvs.lookup "successiveCarrierContactInformation")))
  | _ => .error [⟨[], .typeMismatch⟩]

/-- pydantic python-mode dump of `SuccessiveCarrierInformation`. -/
def SuccessiveCarrierInformation.basefields (s : SuccessiveCarrierInformation) : PyFields :=
  fieldsOf [("successiveCarrierCity", optDump .vstr s.successiveCarrierCity),
    ("successiveCarrierCountryCode", optDump (fun x => .vdict x.basefields) s.successiveCarrierCountryCode),
    ("successiveCarrierCompanyName", optDump .vstr s.successiveCarrierCompanyName),
    ("successiveCarrierDriverName", optDump .vstr s.successiveCarrierDriverName),
    ("successiveCarrierPostcode", optDump .vstr s.successiveCarrierPostcode),
    ("successiveCarrierStreet", optDump .vstr s.successiveCarrierStreet),
    ("successiveCarrierContactInformation", optDump (fun x => .vdict x.basefields) s.successiveCarrierContactInformation)]

/-- `TakingOverTheGoods` (ecmr.py lines 311-316). -/
structure TakingOverTheGoods : Type where
  takingOverTheGoodsPlace : Option String
  logisticsTimeOfArrivalDateTime : Option String
  logisticsTimeOfDepartureDateTime : Option String
  deriving DecidableEq

/-- Validation of `TakingOverTheGoods`. -/
def TakingOverTheGoods.validate : PyValue → VRes TakingOverTheGoods
  | .vdict kvs =>
      vapp (vapp (vapp (.ok TakingOverTheGoods.mk)
        (atField "takingOverTheGoodsPlace" (optF (strLen 2 60) (kvs.lookup "takingOverTheGoodsPlace"))))
        (atField "logisticsTimeOfArrivalDateTime" (optF dtF (kvs.lookup "logisticsTimeOfArrivalDateTime"))))
        (atField "logisticsTimeOfDepartureDateTime" (optF dtF (kvs.lookup "logisticsTimeOfDepartureDateTime")))
  | _ => .error [⟨[], .typeMismatch⟩]

/-- pydantic python-mode dump of `TakingOverTheGoods`. -/
def TakingOverTheGoods.basefields (t : TakingOverTheGoods) : PyFields :=
  fieldsOf [("takingOverTheGoodsPlace", optDump .vstr t.takingOverTheGoodsPlace),
    ("logisticsTimeOfArrivalDateTime", optDump .vstr t.logisticsTimeOfArrivalDateTime),
    ("logisticsTimeOfDepartureDateTime", optDump .vstr t.logisticsTimeOfDepartureDateTime)]

/-- `ToBePaidBy` (ecmr.py lines 319-325). -/
structure ToBePaidBy : Type where
  customChargeCarriage : Option CustomCharge
  customChargeSupplementary : Option CustomCharge
  customChargeCustomsDuties : Option CustomCharge
  customChargeOther : Option CustomCharge
  deriving DecidableEq

/-- Validation of `ToBePaidBy`. -/
def ToBePaidBy.validate : PyValue → VRes ToBePaidBy
  | .vdict kvs =>
      vapp (vapp (vapp (vapp (.ok ToBePaidBy.mk)
        (atField "customChargeCarriage" (optF CustomCharge.validate (kvs.lookup "customChargeCarriage"))))
        (atField "customChargeSupplementary" (optF CustomCharge.validate (kvs.lookup "customChargeSupplementary"))))
        (atField "customChargeCustomsDuties" (optF CustomCharge.validate (kvs.lookup "customChargeCustomsDuties"))))
        (atField "customChargeOther" (optF CustomCharge.validate (kvs.lookup "customChargeOther")))
  | _ => .error [⟨[], .typeMismatch⟩]

/-- pydantic python-mode dump of `ToBePaidBy`. -/
def ToBePaidBy.basefields (t : ToBePaidBy) : PyFields :=
  fieldsOf [("customChargeCarriage", optDump (fun c => .vdict c.basefields) t.customChargeCarriage),
    ("customChargeSupplementary", optDump (fun c => .vdict c.basefields) t.customChargeSupplementary),
    ("customChargeCustomsDuties", optDump (fun c => .vdict c.basefields) t.customChargeCustomsDuties),
    ("customChargeOther", optDump (fun c => .vdict c.basefields) t.customChargeOther)]

/-- `VolumeInM3` (ecmr.py lines 328-331). -/
structure VolumeInM3 : Type where
  supplyChainConsignmentItemGrossVolume : Option Rat
  deriving DecidableEq

/-- Validation of `VolumeInM3`. -/
def VolumeInM3.validate : PyValue → VRes VolumeInM3
  | .vdict kvs =>
      vapp (.ok VolumeInM3.mk)
        (atField "supplyChainConsignmentItemGrossVolume" (optF (numIn 0 9999) (kvs.lookup "supplyChainConsignmentItemGrossVolume")))
  | _ => .error [⟨[], .typeMismatch⟩]

/-- pydantic python-mode dump of `VolumeInM3`. -/
def VolumeInM3.basefields (v : VolumeInM3) : PyFields :=
  fieldsOf [("supplyChainConsignmentItemGrossVolume", optDump .vnum v.supplyChainConsignmentItemGrossVolume)]

/-- `Item` (ecmr.py lines 334-342). -/
structure Item : Type where
  marksAndNos : Option MarksAndNos
  numberOfPackages : Option NumberOfPackages
  methodOfPacking : Option MethodOfPacking
  natureOfTheGoods : Option NatureOfTheGoods
  grossWeightInKg : Option GrossWeightInKg
  volumeInM3 : Option VolumeInM3
  deriving DecidableEq

/-- Validation of `Item`. -/
def Item.validate : PyValue → VRes Item
  | .vdict kvs =>
      vapp (vapp (vapp (vapp (vapp (vapp (.ok Item.mk)
        (atField "marksAndNos" (optF MarksAndNos.validate (kvs.lookup "marksAndNos"))))
        (atField "numberOfPackages" (optF NumberOfPackages.validate (kvs.lookup "numberOfPackages"))))
        (atField "methodOfPacking" (optF MethodOfPacking.validate (kvs.lookup "methodOfPacking"))))
        (atField "natureOfTheGoods" (optF NatureOfTheGoods.validate (kvs.lookup "natureOfTheGoods"))))
        (atField "grossWeightInKg" (optF GrossWeightInKg.validate (kvs.lookup "grossWeightInKg"))))
        (atField "volumeInM3" (optF VolumeInM3.validate (kvs.lookup "volumeInM3")))
  | _ => .error [⟨[], .typeMismatch⟩]

/-- pydantic python-mode dump of `Item`. -/
def Item.basefields (i : Item) : PyFields :=
  fieldsOf [("marksAndNos", optDump (fun x => .vdict x.basefields) i.marksAndNos),
    ("numberOfPackages", optDump (fun x => .vdict x.basefields) i.numberOfPackages),
    ("methodOfPacking", optDump (fun x => .vdict x.basefields) i.methodOfPacking),
    ("natureOfTheGoods", optDump (fun x => .vdict x.basefields) i.natureOfTheGoods),
    ("grossWeightInKg", optDump (fun x => .vdict x.basefields) i.grossWeightInKg),
    ("volumeInM3", optDump (fun x => .vdict x.basefields) i.volumeInM3)]

/-- `EcmrConsignment` (ecmr.py lines 345-370): nineteen optional
sub-structures. -/
structure EcmrConsignment : Type where
  senderInformation : Option SenderInformation
  multiConsigneeShipment : Option MultiConsigneeShipment
  consigneeInformation : Option ConsigneeInformation
  takingOverTheGoods : Option TakingOverTheGoods
  deliveryOfTheGoods : Option DeliveryOfTheGoods
  sendersInstructions : Option SendersInstructions
  carrierInformation : Option CarrierInformation
  successiveCarrierInformation : Option SuccessiveCarrierInformation
  carriersReservationsAndObservationsOnTakingOverTheGoods :
    Option CarriersReservationsAndObservationsOnTakingOverTheGoods
  documentsHandedToCarrier : Option DocumentsHandedToCarrier
  itemList : Option (List Item)
  specialAgreementsSenderCarrier : Option SpecialAgreementsSenderCarrier
  toBePaidBy : Option ToBePaidBy
  otherUsefulParticulars : Option OtherUsefulParticulars
  cashOnDelivery : Option CashOnDelivery
  established : Option Established
  goodsReceived : Option GoodsReceived
  nonContractualPartReservedForTheCarrier :
    Option NonContractualPartReservedForTheCarrier
  referenceIdentificationNumber : Option ReferenceIdentificationNumber
  deriving DecidableEq

/-- Validation of `EcmrConsignment`. -/
def EcmrConsignment.validate : PyValue → VRes EcmrConsignment
  | .vdict kvs =>
      vapp (vapp (vapp (vapp (vapp (vapp (vapp (vapp (vapp (vapp (vapp (vapp (vapp (vapp (vapp (vapp (vapp (vapp (vapp (.ok EcmrConsignment.mk)
        (atField "senderInformation" (optF SenderInformation.validate (kvs.lookup "senderInformation"))))
        (atField "multiConsigneeShipment" (optF MultiConsigneeShipment.validate (kvs.lookup "multiConsigneeShipment"))))
        (atField "consigneeInformation" (optF ConsigneeInformation.validate (kvs.lookup "consigneeInformation"))))
        (atField "takingOverTheGoods" (optF TakingOverTheGoods.validate (kvs.lookup "takingOverTheGoods"))))
        (atField "deliveryOfTheGoods" (optF DeliveryOfTheGoods.validate (kvs.lookup "deliveryOfTheGoods"))))
        (atField "sendersInstructions" (optF SendersInstructions.validate (kvs.lookup "sendersInstructions"))))
        (atField "carrierInformation" (optF CarrierInformation.validate (kvs.lookup "carrierInformation"))))
        (atField "successiveCarrierInformation" (optF SuccessiveCarrierInformation.validate (kvs.lookup "successiveCarrierInformation"))))
        (atField "carriersReservationsAndObservationsOnTakingOverTheGoods"
          (optF CarriersReservationsAndObservationsOnTakingOverTheGoods.validate
            (kvs.lookup "carriersReservationsAndObservationsOnTakingOverTheGoods"))))
        (atField "documentsHandedToCarrier" (optF DocumentsHandedToCarrier.validate (kvs.lookup "documentsHandedToCarrier"))))
        (atField "itemList" (optF (listF Item.validate) (kvs.lookup "itemList"))))
        (atField "specialAgreementsSenderCarrier" (optF SpecialAgreementsSenderCarrier.validate (kvs.lookup "specialAgreementsSenderCarrier"))))
        (atField "toBePaidBy" (optF ToBePaidBy.validate (kvs.lookup "toBePaidBy"))))
        (atField "otherUsefulParticulars" (optF OtherUsefulParticulars.validate (kvs.lookup "otherUsefulParticulars"))))
        (atField "cashOnDelivery" (optF CashOnDelivery.validate (kvs.lookup "cashOnDelivery"))))
        (atField "established" (optF Established.validate (kvs.lookup "established"))))
        (atField "goodsReceived" (optF GoodsReceived.validate (kvs.lookup "goodsReceived"))))
        (atField "nonContractualPartReservedForTheCarrier"
          (optF NonContractualPartReservedForTheCarrier.validate
            (kvs.lookup "nonContractualPartReservedForTheCarrier"))))
        (atField "referenceIdentificationNumber" (optF ReferenceIdentificationNumber.validate (kvs.lookup "referenceIdentificationNumber")))
  | _ => .error [⟨[], .typeMismatch⟩]

/-- pydantic python-mode dump of `EcmrConsignment`. -/
def EcmrConsignment.basefields (e : EcmrConsignment) : PyFields :=
  fieldsOf [("senderInformation", optDump (fun x => .vdict x.basefields) e.senderInformation),
    ("multiConsigneeShipment", optDump (fun x => .vdict x.basefields) e.multiConsigneeShipment),
    ("consigneeInformation", optDump (fun x => .vdict x.basefields) e.consigneeInformation),
    ("takingOverTheGoods", optDump (fun x => .vdict x.basefields) e.takingOverTheGoods),
    ("deliveryOfTheGoods", optDump (fun x => .vdict x.basefields) e.deliveryOfTheGoods),
    ("sendersInstructions", optDump (fun x => .vdict x.basefields) e.sendersInstructions),
    ("carrierInformation", optDump (fun x => .vdict x.basefields) e.carrierInformation),
    ("successiveCarrierInformation", optDump (fun x => .vdict x.basefields) e.successiveCarrierInformation),
    ("carriersReservationsAndObservationsOnTakingOverTheGoods",
      optDump (fun x => .vdict x.basefields) e.carriersReservationsAndObservationsOnTakingOverTheGoods),
    ("documentsHandedToCarrier", optDump (fun x => .vdict x.basefields) e.documentsHandedToCarrier),
    ("itemList", optDump (listDump fun i => .vdict i.basefields) e.itemList),
    ("specialAgreementsSenderCarrier", optDump (fun x => .vdict x.basefields) e.specialAgreementsSenderCarrier),
    ("toBePaidBy", optDump (fun x => .vdict x.basefields) e.toBePaidBy),
    ("otherUsefulParticulars", optDump (fun x => .vdict x.basefields) e.otherUsefulParticulars),
    ("cashOnDelivery", optDump (fun x => .vdict x.basefields) e.cashOnDelivery),
    ("established", optDump (fun x => .vdict x.basefields) e.established),
    ("goodsReceived", optDump (fun x => .vdict x.basefields) e.goodsReceived),
    ("nonContractualPartReservedForTheCarrier",
      optDump (fun x => .vdict x.basefields) e.nonContractualPartReservedForTheCarrier),
    ("referenceIdentificationNumber", optDump (fun x => .vdict x.basefields) e.referenceIdentificationNumber)]

/-- `EcmrStatus` enum (ecmr.py lines 373-379). -/
inductive EcmrStatus : Type where
  | NEW | LOADING | IN_TRANSPORT | DELIVERED
  deriving DecidableEq

/-- The `.value` token of each `EcmrStatus` member. -/
def EcmrStatus.value : EcmrStatus → String
  | .NEW => "NEW"
  | .LOADING => "LOADING"
  | .IN_TRANSPORT => "IN_TRANSPORT"
  | .DELIVERED => "DELIVERED"

/-- pydantic enum lookup by value for `EcmrStatus`. -/
def EcmrStatus.ofString? : String → Option EcmrStatus
  | "NEW" => some .NEW
  | "LOADING" => some .LOADING
  | "IN_TRANSPORT" => some .IN_TRANSPORT
  | "DELIVERED" => some .DELIVERED
  | _ => none

/-- `EcmrModel` (ecmr.py lines 382-394): every field is optional except
`ecmrConsignment`. -/
structure EcmrModel : Type where
  ecmrId : Option String
  ecmrConsignment : EcmrConsignment
  ecmrStatus : Option EcmrStatus
  createdAt : Option String
  createdBy : Option String
  editedAt : Option String
  editedBy : Option String
  originUrl : Option String
  deriving DecidableEq

/-- Validation of `EcmrModel`. -/
def EcmrModel.validate : PyValue → VRes EcmrModel
  | .vdict kvs =>
      vapp (vapp (vapp (vapp (vapp (vapp (vapp (vapp (.ok EcmrModel.mk)
        (atField "ecmrId" (optF strAny (kvs.lookup "ecmrId"))))
        (atField "ecmrConsignment" (reqF EcmrConsignment.validate (kvs.lookup "ecmrConsignment"))))
        (atField "ecmrStatus" (optF (enumF EcmrStatus.ofString?) (kvs.lookup "ecmrStatus"))))
        (atField "createdAt" (optF dtF (kvs.lookup "createdAt"))))
        (atField "createdBy" (optF strAny (kvs.lookup "createdBy"))))
        (atField "editedAt" (optF dtF (kvs.lookup "editedAt"))))
        (atField "editedBy" (optF strAny (kvs.lookup "editedBy"))))
        (atField "originUrl" (optF strAny (kvs.lookup "originUrl")))
  | _ => .error [⟨[], .typeMismatch⟩]

/-- pydantic python-mode dump of `EcmrModel`. -/
def EcmrModel.basefields (e : EcmrModel) : PyFields :=
  fieldsOf [("ecmrId", optDump .vstr e.ecmrId),
    ("ecmrConsignment", .vdict e.ecmrConsignment.basefields),
    ("ecmrStatus", optDump (fun s => .venum s.value) e.ecmrStatus),
    ("createdAt", optDump .vstr e.createdAt),
    ("createdBy", optDump .vstr e.createdBy),
    ("editedAt", optDump .vstr e.editedAt),
    ("editedBy", optDump .vstr e.editedBy),
    ("originUrl", optDump .vstr e.originUrl)]

/-- `TransportOperation` (data_model.py lines 568-598): the root
aggregate. -/
structure TransportOperation : Type where
  id : Int
  operator : Organization
  schedule : Schedule
  driver : Driver
  vehicle : Vehicle
  phase : Option (List Phase)
  document : Option (List Document)
  ecmr : Option (List EcmrModel)
  payload : Option Payload
  deriving DecidableEq

/-- Validation of `TransportOperation`. -/
def TransportOperation.validate : PyValue → VRes TransportOperation
  | .vdict kvs =>
      vapp (vapp (vapp (vapp (vapp (vapp (vapp (vapp (vapp (.ok TransportOperation.mk)
        (atField "id" (reqF (intGe 1) (kvs.lookup "id"))))
        (atField "operator" (reqF Organization.validate (kvs.lookup "operator"))))
        (atField "schedule" (reqF Schedule.validate (kvs.lookup "schedule"))))
        (atField "driver" (reqF Driver.validate (kvs.lookup "driver"))))
        (atField "vehicle" (reqF Vehicle.validate (kvs.lookup "vehicle"))))
        (atField "phase" (optF (listF Phase.validate) (kvs.lookup "phase"))))
        (atField "document" (optF (listF Document.validate) (kvs.lookup "document"))))
        (atField "ecmr" (optF (listF EcmrModel.validate) (kvs.lookup "ecmr"))))
        (atField "payload" (optF Payload.validate (kvs.lookup "payload")))
  | _ => .error [⟨[], .typeMismatch⟩]

/-- pydantic python-mode dump of `TransportOperation`. -/
def TransportOperation.basefields (t : TransportOperation) : PyFields :=
  fieldsOf [("id", .vint t.id),
    ("operator", .vdict t.operator.basefields),
    ("schedule", .vdict t.schedule.basefields),
    ("driver", .vdict t.driver.basefields),
    ("vehicle", .vdict t.vehicle.basefields),
    ("phase", optDump (listDump fun p => .vdict p.basefields) t.phase),
    ("document", optDump (listDump fun d => .vdict d.basefields) t.document),
    ("ecmr", optDump (listDump fun e => .vdict e.basefields) t.ecmr),
    ("payload", optDump Payload.base t.payload)]

/-- `HandleBaseModel.model_dump` for a `TransportOperation` (base.py lines
14-49): the pydantic python-mode dump with `process_value` applied to every
entry. -/
def TransportOperation.model_dump (t : TransportOperation) : PyValue :=
  .vdict (process_fields t.basefields)

/-! ## Concrete sample records and raw inputs used in the scenarios -/

/-- The Payload mapping of spec scenario 4. -/
def payloadSample : PyFields :=
  fieldsOf [("custom_note", .vstr "fragile"), ("pallets", .vint 3)]

/-- A validated `Category` with `type: "B"`, `status: "VALID"`. -/
def sampleCategory : Category :=
  ⟨.B, none, "2020-01-01", "2030-01-01", .VALID, none⟩

/-- A validated `License` holding exactly `sampleCategory`. -/
def sampleLicense : License := ⟨"ABC123", "GR", [sampleCategory]⟩

/-- A validated `Driver` holding `sampleLicense`. -/
def sampleDriver : Driver :=
  ⟨1, "John", "Doe", "GR", "EL123", sampleLicense, none, none⟩

/-- A validated `Owner` with both optional fields absent. -/
def sampleOwner : Owner := ⟨1, "ACME", none, none⟩

/-- A validated `Vehicle` with empty insurance and revision lists. -/
def sampleVehicle : Vehicle :=
  ⟨1, "GR", "AB1234", none, none, none, sampleOwner, [], []⟩

/-- A validated operator `Organization`. -/
def sampleOperator : Organization := ⟨1, "Operator", "GR", .OPERATOR, none, none⟩

/-- A validated `Schedule`. -/
def sampleSchedule : Schedule :=
  ⟨"2024-01-01T08:00:00Z", none, "2024-01-02T08:00:00Z", none⟩

/-- A validated `TransportOperation` whose `driver.license.category` is
exactly `[sampleCategory]`. -/
def sampleTransportOperation : TransportOperation :=
  ⟨1, sampleOperator, sampleSchedule, sampleDriver, sampleVehicle,
   none, none, none, none⟩

/-- A validated `Location` built without coordinates. -/
def sampleLocation : Location := ⟨1, "GR", "Depot", .GATE, none⟩

/-- A raw `Owner` mapping whose `vat` is 14 characters, one past the
13-character bound. -/
def ownerRawBadVat : PyValue :=
  .vdict (fieldsOf [("id", .vint 1), ("name", .vstr "ACME"),
    ("vat", .vstr "EL123456789012")])

/-- A raw `Vehicle` mapping, valid in every field except possibly the given
owner sub-mapping. -/
def vehicleRawWithOwner (ov : PyValue) : PyValue :=
  .vdict (fieldsOf [("id", .vint 1), ("countryCode", .vstr "GR"),
    ("plateNumber", .vstr "AB1234"), ("owner", ov),
    ("insurance", .vlist .nil), ("revision", .vlist .nil)])

/-- A valid raw `Organization` mapping. -/
def organizationRaw : PyValue :=
  .vdict (fieldsOf [("id", .vint 1), ("name", .vstr "Operator"),
    ("countryCode", .vstr "GR"), ("type", .vstr "OPERATOR")])

/-- A valid raw `Schedule` mapping. -/
def scheduleRaw : PyValue :=
  .vdict (fieldsOf [("departureDateTime", .vstr "2024-01-01T08:00:00Z"),
    ("estimatedDateTimeOfArrival", .vstr "2024-01-02T08:00:00Z")])

/-- A raw `Category` mapping with the given raw `status` value and all other
fields valid. -/
def categoryRawWithStatus (st : PyValue) : PyValue :=
  .vdict (fieldsOf [("type", .vstr "B"), ("issueDate", .vstr "2020-01-01"),
    ("expiryDate", .vstr "2030-01-01"), ("status", st)])

/-- A valid raw `License` mapping. -/
def licenseRaw : PyValue :=
  .vdict (fieldsOf [("id", .vstr "ABC123"), ("countryCode", .vstr "GR"),
    ("category", .vlist (listOf [categoryRawWithStatus (.vstr "VALID")]))])

/-- A valid raw `Driver` mapping. -/
def driverRaw : PyValue :=
  .vdict (fieldsOf [("id", .vint 1), ("firstName", .vstr "John"),
    ("lastName", .vstr "Doe"), ("countryCode", .vstr "GR"),
    ("vat", .vstr "EL123"), ("license", licenseRaw)])

/-- A raw `TransportOperation` mapping whose single constraint violation is
the 14-character `vehicle.owner.vat`. -/
def transportOperationRawBadVat : PyValue :=
  .vdict (fieldsOf [("id", .vint 1), ("operator", organizationRaw),
    ("schedule", scheduleRaw), ("driver", driverRaw),
    ("vehicle", vehicleRawWithOwner ownerRawBadVat)])

/-- A raw `Insurance` mapping with the given `activationDate` string and all
other fields valid. -/
def insuranceRawWithDate (s : String) : PyValue :=
  .vdict (fieldsOf [("id", .vint 1), ("name", .vstr "Ins"),
    ("number", .vstr "123"), ("isInsured", .vbool true),
    ("activationDate", .vstr s), ("expirationDate", .vstr "2030-01-01")])

/-! ## General lemmas about the normalizer -/

mutual

/-- `process_value` is idempotent on every runtime value. -/
theorem process_value_idem (v : PyValue) :
    process_value (process_value v) = process_value v := by
  cases v with
  | venum tok => rfl
  | vlist items =>
      simp only [process_value]
      rw [process_list_idem items]
  | vdict entries =>
      simp only [process_value]
      rw [process_fields_idem entries]
  | vmodel fields =>
      simp only [process_value]
      rw [process_fields_idem fields]
  | vnull => rfl
  | vbool b => rfl
  | vint n => rfl
  | vnum q => rfl
  | vstr s => rfl

/-- `process_list` is idempotent. -/
theorem process_list_idem (xs : PyList) :
    process_list (process_list xs) = process_list xs := by
  cases xs with
  | nil => rfl
  | cons v tl =>
      simp only [process_list]
      rw [process_value_idem v, process_list_idem tl]

/-- `process_fields` is idempotent. -/
theorem process_fields_idem (kvs : PyFields) :
    process_fields (process_fields kvs) = process_fields kvs := by
  cases kvs with
  | nil => rfl
  | cons k v tl =>
      simp only [process_fields]
      rw [process_value_idem v, process_fields_idem tl]

end

mutual

/-- The output of `process_value` contains no enum member and no model
instance. -/
theorem enumFree_process_value (v : PyValue) :
    enumFreeVal (process_value v) = true := by
  cases v with
  | venum tok => rfl
  | vlist items =>
      show enumFreeList (process_list items) = true
      exact enumFree_process_list items
  | vdict entries =>
      show enumFreeFields (process_fields entries) = true
      exact enumFree_process_fields entries
  | vmodel fields =>
      show enumFreeFields (process_fields fields) = true
      exact enumFree_process_fields fields
  | vnull => rfl
  | vbool b => rfl
  | vint n => rfl
  | vnum q => rfl
  | vstr s => rfl

/-- The output of `process_list` contains no enum member and no model
instance. -/
theorem enumFree_process_list (xs : PyList) :
    enumFreeList (process_list xs) = true := by
  cases xs with
  | nil => rfl
  | cons v tl =>
      simp only [process_list, enumFreeList]
      rw [enumFree_process_value v, enumFree_process_list tl]
      rfl

/-- The output of `process_fields` contains no enum member and no model
instance. -/
theorem enumFree_process_fields (kvs : PyFields) :
    enumFreeFields (process_fields kvs) = true := by
  cases kvs with
  | nil => rfl
  | cons k v tl =>
      simp only [process_fields, enumFreeFields]
      rw [enumFree_process_value v, enumFree_process_fields tl]
      rfl

end

/-- `process_fields` preserves keys and acts pointwise on values. -/
theorem lookup_process_fields (kvs : PyFields) (k : String) :
    (process_fields kvs).lookup k = (kvs.lookup k).map process_value := by
  cases kvs with
  | nil => rfl
  | cons key v tl =>
      simp only [process_fields, PyFields.lookup]
      by_cases h : key = k
      · simp [h]
      · simp [h, lookup_process_fields tl k]

/-- `process_fields` leaves the ordered key list unchanged. -/
theorem keys_process_fields (kvs : PyFields) :
    (process_fields kvs).keys = kvs.keys := by
  cases kvs with
  | nil => rfl
  | cons key v tl =>
      simp only [process_fields, PyFields.keys]
      rw [keys_process_fields tl]

/-- Looking up a declared key skips an entry with a different key. -/
theorem lookup_cons_ne (k : String) (v : PyValue) (tl : PyFields) (key : String)
    (h : k ≠ key) : (PyFields.cons k v tl).lookup key = tl.lookup key := by
  simp [PyFields.lookup, h]

/-- A string outside the declared `Status` value tokens parses to `none`. -/
theorem status_parse_none_of_not_mem (s : String) (h : s ∉ Status.allTokens) :
    Status.ofString? s = none := by
  unfold Status.ofString?
  split
  · simp [Status.allTokens, Status.members, Status.value] at h
  · simp [Status.allTokens, Status.members, Status.value] at h
  · simp [Status.allTokens, Status.members, Status.value] at h
  · simp [Status.allTokens, Status.members, Status.value] at h
  · simp [Status.allTokens, Status.members, Status.value] at h
  · simp [Status.allTokens, Status.members, Status.value] at h
  · rfl

/-! ## Claims -/

/-- C1 (amended): unknown top-level fields are NOT rejected.  The classes set
no `model_config`, so pydantic's default `extra='ignore'` applies: validating
a mapping that carries an undeclared, non-Payload field returns exactly the
result of validating the mapping without that field — the unknown field is
silently dropped, shown here for the root aggregate `TransportOperation` and
for `Coordinates`. -/
theorem unknownField_silently_ignored :
    (∀ (k : String) (v : PyValue) (kvs : PyFields),
        k ∉ (["id", "operator", "schedule", "driver", "vehicle", "phase",
          "document", "ecmr", "payload"] : List String) →
        TransportOperation.validate (.vdict (.cons k v kvs))
          = TransportOperation.validate (.vdict kvs))
    ∧ (∀ (k : String) (v : PyValue) (kvs : PyFields),
        k ∉ (["latitude", "longitude"] : List String) →
        Coordinates.validate (.vdict (.cons k v kvs))
          = Coordinates.validate (.vdict kvs)) := by
  constructor
  · intro k v kvs h
    simp only [List.mem_cons, List.not_mem_nil, or_false, not_or] at h
    obtain ⟨h1, h2, h3, h4, h5, h6, h7, h8, h9⟩ := h
    simp [TransportOperation.validate, PyFields.lookup,
      h1, h2, h3, h4, h5, h6, h7, h8, h9]
  · intro k v kvs h
    simp only [List.mem_cons, List.not_mem_nil, or_false, not_or] at h
    obtain ⟨h1, h2⟩ := h
    simp [Coordinates.validate, PyFields.lookup, h1, h2]

/-- C1 witness: instantiating the unknown key at `"bogus"`. -/
theorem unknownField_silently_ignored_witness :
    ("bogus" ∉ (["id", "operator", "schedule", "driver", "vehicle", "phase",
      "document", "ecmr", "payload"] : List String))
    ∧ TransportOperation.validate (.vdict (.cons "bogus" (.vint 7) .nil))
        = TransportOperation.validate (.vdict .nil) :=
  ⟨by decide, unknownField_silently_ignored.1 "bogus" (.vint 7) .nil (by decide)⟩

/-- C1 counterexample: validating `Coordinates` with an extra undeclared
field `bogus` SUCCEEDS (the claim says it must fail with an unknown-field
error). -/
theorem unknownField_rejected_counterexample :
    Coordinates.validate (.vdict (fieldsOf [("latitude", .vnum 0),
      ("longitude", .vnum 0), ("bogus", .vint 1)])) = .ok ⟨0, 0⟩ := rfl

/-- C2: normalization is idempotent — `process_value` is idempotent on every
runtime value, and in particular re-normalizing the `model_dump` of any
validated `TransportOperation` returns it unchanged. -/
theorem normalize_idempotent :
    (∀ v : PyValue, process_value (process_value v) = process_value v)
    ∧ ∀ t : TransportOperation,
        process_value (TransportOperation.model_dump t)
          = TransportOperation.model_dump t := by
  refine ⟨process_value_idem, fun t => ?_⟩
  simp only [TransportOperation.model_dump, process_value]
  rw [process_fields_idem]

/-- C3: a constraint violation in a nested composite propagates to the
top-level validation call with the full field path.  Any `Owner` failure
surfaces from `Vehicle.validate` tagged with the `owner` path component, and
the concrete 14-character `vehicle.owner.vat` surfaces from the root
`TransportOperation.validate` as the full path `vehicle.owner.vat`. -/
theorem nested_violation_reports_full_path :
    (∀ (ov : PyValue) (es : List ValErr), Owner.validate ov = .error es →
        Vehicle.validate (vehicleRawWithOwner ov)
          = .error (es.map fun e => ⟨"owner" :: e.path, e.kind⟩))
    ∧ TransportOperation.validate transportOperationRawBadVat
        = .error [⟨["vehicle", "owner", "vat"], .length⟩] := by
  constructor
  · intro ov es h
    have e1 : intGe 1 (.vint 1) = .ok 1 := rfl
    have e2 : strShape countryCodeShape (.vstr "GR") = .ok "GR" := rfl
    have e3 : strLen 1 20 (.vstr "AB1234") = .ok "AB1234" := rfl
    have e4 : listF Insurance.validate (.vlist .nil) = .ok [] := rfl
    have e5 : listF Revision.validate (.vlist .nil) = .ok [] := rfl
    simp [Vehicle.validate, vehicleRawWithOwner, PyFields.lookup, fieldsOf,
      reqF, optF, atField, vapp, h, e1, e2, e3, e4, e5]
  · rfl

/-- C3 witness: the vat-too-long owner instantiates the propagation. -/
theorem nested_violation_reports_full_path_witness :
    Owner.validate ownerRawBadVat = .error [⟨["vat"], .length⟩]
    ∧ Vehicle.validate (vehicleRawWithOwner ownerRawBadVat)
        = .error [⟨["owner", "vat"], .length⟩] := by
  refine ⟨rfl, ?_⟩
  have h := nested_violation_reports_full_path.1 ownerRawBadVat
    [⟨["vat"], .length⟩] rfl
  simpa using h

/-- C4 (amended): in the eCMR sub-schema every leaf field of every nested
sub-structure is optional — validating each sub-structure against an empty
mapping succeeds with every field absent — with exactly two exceptions:
`ecmrConsignment` is required on `EcmrModel`, and `isMultiConsigneeShipment`
is required on `MultiConsigneeShipment`. -/
theorem ecmr_leaf_optionality :
    CarrierContactInformation.validate (.vdict .nil) = .ok ⟨none, none, none⟩
    ∧ CarrierCountryCode.validate (.vdict .nil) = .ok ⟨none, none⟩
    ∧ CarrierInformation.validate (.vdict .nil)
        = .ok ⟨none, none, none, none, none, none, none, none⟩
    ∧ Signature.validate (.vdict .nil)
        = .ok ⟨none, none, none, none, none, none, none, none, none⟩
    ∧ CarriersReservationsAndObservationsOnTakingOverTheGoods.validate (.vdict .nil)
        = .ok ⟨none, none⟩
    ∧ CashOnDelivery.validate (.vdict .nil) = .ok ⟨none⟩
    ∧ ConsigneeContactInformation.validate (.vdict .nil) = .ok ⟨none, none⟩
    ∧ ConsigneeCountryCode.validate (.vdict .nil) = .ok ⟨none, none⟩
    ∧ ConsigneeInformation.validate (.vdict .nil)
        = .ok ⟨none, none, none, none, none, none, none⟩
    ∧ CustomCharge.validate (.vdict .nil) = .ok ⟨none, none, none⟩
    ∧ DeliveryOfTheGoods.validate (.vdict .nil) = .ok ⟨none, none⟩
    ∧ DocumentsHandedToCarrier.validate (.vdict .nil) = .ok ⟨none⟩
    ∧ Established.validate (.vdict .nil) = .ok ⟨none, none⟩
    ∧ GoodsReceived.validate (.vdict .nil)
        = .ok ⟨none, none, none, none, none, none⟩
    ∧ GrossWeightInKg.validate (.vdict .nil) = .ok ⟨none⟩
    ∧ LogisticsShippingMarksCustomBarcode.validate (.vdict .nil) = .ok ⟨none⟩
    ∧ MarksAndNos.validate (.vdict .nil) = .ok ⟨none, none⟩
    ∧ MethodOfPacking.validate (.vdict .nil) = .ok ⟨none⟩
    ∧ NatureOfTheGoods.validate (.vdict .nil) = .ok ⟨none⟩
    ∧ NonContractualPartReservedForTheCarrier.validate (.vdict .nil) = .ok ⟨none⟩
    ∧ NumberOfPackages.validate (.vdict .nil) = .ok ⟨none⟩
    ∧ OtherUsefulParticulars.validate (.vdict .nil) = .ok ⟨none⟩
    ∧ ReferenceIdentificationNumber.validate (.vdict .nil) = .ok ⟨none⟩
    ∧ SenderContactInformation.validate (.vdict .nil) = .ok ⟨none, none⟩
    ∧ SenderCountryCode.validate (.vdict .nil) = .ok ⟨none, none⟩
    ∧ SenderInformation.validate (.vdict .nil)
        = .ok ⟨none, none, none, none, none, none, none⟩
    ∧ SendersInstructions.validate (.vdict .nil) = .ok ⟨none⟩
    ∧ SpecialAgreementsSenderCarrier.validate (.vdict .nil) = .ok ⟨none⟩
    ∧ SuccessiveCarrierContactInformation.validate (.vdict .nil)
        = .ok ⟨none, none, none⟩
    ∧ SuccessiveCarrierCountryCode.validate (.vdict .nil) = .ok ⟨none, none⟩
    ∧ SuccessiveCarrierInformation.validate (.vdict .nil)
        = .ok ⟨none, none, none, none, none, none, none⟩
    ∧ TakingOverTheGoods.validate (.vdict .nil) = .ok ⟨none, none, none⟩
    ∧ ToBePaidBy.validate (.vdict .nil) = .ok ⟨none, none, none, none⟩
    ∧ VolumeInM3.validate (.vdict .nil) = .ok ⟨none⟩
    ∧ Item.validate (.vdict .nil) = .ok ⟨none, none, none, none, none, none⟩
    ∧ EcmrConsignment.validate (.vdict .nil)
        = .ok ⟨none, none, none, none, none, none, none, none, none, none,
            none, none, none, none, none, none, none, none, none⟩
    ∧ MultiConsigneeShipment.validate (.vdict .nil)
        = .error [⟨["isMultiConsigneeShipment"], .missing⟩]
    ∧ EcmrModel.validate (.vdict .nil) = .error [⟨["ecmrConsignment"], .missing⟩]
    ∧ EcmrModel.validate (.vdict (fieldsOf [("ecmrConsignment", .vdict .nil)]))
        = .ok ⟨none, ⟨none, none, none, none, none, none, none, none, none,
            none, none, none, none, none, none, none, none, none, none⟩,
            none, none, none, none, none, none⟩ :=
  ⟨rfl, rfl, rfl, rfl, rfl, rfl, rfl, rfl, rfl, rfl, rfl, rfl, rfl, rfl, rfl,
   rfl, rfl, rfl, rfl, rfl, rfl, rfl, rfl, rfl, rfl, rfl, rfl, rfl, rfl, rfl,
   rfl, rfl, rfl, rfl, rfl, rfl, rfl, rfl, rfl⟩

/-- C4 counterexample: `MultiConsigneeShipment` is a nested eCMR
sub-structure whose leaf `isMultiConsigneeShipment` is REQUIRED — validating
it with the leaf absent fails (the claim says the only required field in the
sub-schema is `EcmrModel.ecmrConsignment`). -/
theorem ecmr_all_leaves_optional_counterexample :
    MultiConsigneeShipment.validate (.vdict .nil)
      = .error [⟨["isMultiConsigneeShipment"], .missing⟩] := rfl

/-- C5 (amended): the declared `Status` literal tokens are exactly VALID,
EXPIRED, SUSPENDED, REVOKED, CONFISCATED and "LOST/STOLEN" (the
`LOST_STOLEN` member's underlying value is the slash-separated string);
"LOST/STOLEN" validates as a `Category.status`, and any string outside the
token set fails with an enum-violation error. -/
theorem status_tokens :
    Status.allTokens
        = ["VALID", "EXPIRED", "SUSPENDED", "REVOKED", "CONFISCATED",
           "LOST/STOLEN"]
    ∧ Category.validate (categoryRawWithStatus (.vstr "LOST/STOLEN"))
        = .ok ⟨.B, none, "2020-01-01", "2030-01-01", .LOST_STOLEN, none⟩
    ∧ ∀ s : String, s ∉ Status.allTokens →
        Category.validate (categoryRawWithStatus (.vstr s))
          = .error [⟨["status"], .enumViolation⟩] := by
  refine ⟨rfl, rfl, fun s h => ?_⟩
  have hs : Status.ofString? s = none := status_parse_none_of_not_mem s h
  have hn : enumF Status.ofString? (.vstr s)
      = .error [⟨[], .enumViolation⟩] := by simp [enumF, hs]
  have e1 : enumF LicenseType.ofString? (.vstr "B") = .ok .B := rfl
  have e2 : strShape dateShape (.vstr "2020-01-01") = .ok "2020-01-01" := rfl
  have e3 : strShape dateShape (.vstr "2030-01-01") = .ok "2030-01-01" := rfl
  simp [Category.validate, categoryRawWithStatus, PyFields.lookup, fieldsOf,
    reqF, optF, atField, vapp, e1, e2, e3, hn]

/-- C5 witness: `"HELLO"` is outside the token set and fails with an
enum-violation error on `status`. -/
theorem status_tokens_witness :
    ("HELLO" ∉ Status.allTokens)
    ∧ Category.validate (categoryRawWithStatus (.vstr "HELLO"))
        = .error [⟨["status"], .enumViolation⟩] :=
  ⟨by decide, status_tokens.2.2 "HELLO" (by decide)⟩

/-- C5 counterexample: the string `"LOST_STOLEN"` does NOT validate as a
status value — the declared token is `"LOST/STOLEN"` (the claim says
"LOST_STOLEN" validates successfully). -/
theorem status_lost_stolen_counterexample :
    Category.validate (categoryRawWithStatus (.vstr "LOST_STOLEN"))
      = .error [⟨["status"], .enumViolation⟩] := rfl

/-- C6: coordinate bounds are inclusive — latitude exactly ±90 validates for
every in-range longitude, and `{latitude: 95.0, longitude: 10.0}` fails with
a range violation on `latitude`. -/
theorem coordinates_bounds_inclusive :
    (∀ q : Rat, -180 ≤ q → q ≤ 180 →
        Coordinates.validate (.vdict (fieldsOf [("latitude", .vnum (-90)),
            ("longitude", .vnum q)])) = .ok ⟨-90, q⟩
        ∧ Coordinates.validate (.vdict (fieldsOf [("latitude", .vnum 90),
            ("longitude", .vnum q)])) = .ok ⟨90, q⟩)
    ∧ Coordinates.validate (.vdict (fieldsOf [("latitude", .vnum 95),
        ("longitude", .vnum 10)])) = .error [⟨["latitude"], .range⟩] := by
  refine ⟨fun q h1 h2 => ⟨?_, ?_⟩, rfl⟩
  · simp [Coordinates.validate, PyFields.lookup, fieldsOf, reqF, numIn,
      atField, vapp, h1, h2]
  · simp [Coordinates.validate, PyFields.lookup, fieldsOf, reqF, numIn,
      atField, vapp, h1, h2]

/-- C6 witness: longitude 10 instantiates the boundary-latitude cases. -/
theorem coordinates_bounds_inclusive_witness :
    Coordinates.validate (.vdict (fieldsOf [("latitude", .vnum (-90)),
        ("longitude", .vnum 10)])) = .ok ⟨-90, 10⟩
    ∧ Coordinates.validate (.vdict (fieldsOf [("latitude", .vnum 90),
        ("longitude", .vnum 10)])) = .ok ⟨90, 10⟩ :=
  coordinates_bounds_inclusive.1 10 (by decide) (by decide)

/-- C7: normalization replaces every enum member by its underlying string
token — for any validated `TransportOperation` whose
`driver.license.category` is one `Category` with type B and status VALID, the
normalized `category` entry is a one-element list of plain mappings whose
`type` entry is the plain string "B" (and `status` the plain string
"VALID"), and the whole normalized output is free of enum members and model
instances. -/
theorem normalize_category_enum_tokens :
    ∀ (t : TransportOperation) (c : Category),
      t.driver.license.category = [c] → c.type = .B → c.status = .VALID →
      (TransportOperation.model_dump t).lookupPath ["driver", "license", "category"]
          = some (.vlist (listOf [Category.model_dump c]))
      ∧ (Category.model_dump c).lookupPath ["type"] = some (.vstr "B")
      ∧ (Category.model_dump c).lookupPath ["status"] = some (.vstr "VALID")
      ∧ enumFreeVal (TransportOperation.model_dump t) = true := by
  intro t c hcat htype hstatus
  refine ⟨?_, ?_, ?_, ?_⟩
  · simp [TransportOperation.model_dump, PyValue.lookupPath,
      lookup_process_fields, TransportOperation.basefields, fieldsOf,
      PyFields.lookup, Driver.basefields, License.basefields,
      Category.model_dump, listDump, listOf, hcat, process_value, process_list]
  · simp [Category.model_dump, PyValue.lookupPath, lookup_process_fields,
      Category.basefields, fieldsOf, PyFields.lookup, htype, process_value,
      LicenseType.value]
  · simp [Category.model_dump, PyValue.lookupPath, lookup_process_fields,
      Category.basefields, fieldsOf, PyFields.lookup, hstatus, process_value,
      Status.value]
  · simp only [TransportOperation.model_dump, enumFreeVal]
    exact enumFree_process_fields _

/-- C7 witness: the sample transport operation instantiates the scenario. -/
theorem normalize_category_enum_tokens_witness :
    (TransportOperation.model_dump sampleTransportOperation).lookupPath
        ["driver", "license", "category"]
        = some (.vlist (listOf [Category.model_dump sampleCategory]))
    ∧ (Category.model_dump sampleCategory).lookupPath ["type"] = some (.vstr "B")
    ∧ (Category.model_dump sampleCategory).lookupPath ["status"] = some (.vstr "VALID")
    ∧ enumFreeVal (TransportOperation.model_dump sampleTransportOperation) = true :=
  normalize_category_enum_tokens sampleTransportOperation sampleCategory rfl rfl rfl

/-- C8: the Payload escape hatch is an identity under
validation-then-normalization — the mapping
`{"custom_note": "fragile", "pallets": 3}` supplied as an `Owner` payload
validates to exactly that mapping and reappears unchanged, key for key, in
the normalized dump. -/
theorem payload_passthrough :
    Owner.validate (.vdict (fieldsOf [("id", .vint 1), ("name", .vstr "ACME"),
        ("payload", .vdict payloadSample)]))
      = .ok ⟨1, "ACME", none, some ⟨payloadSample⟩⟩
    ∧ (Owner.model_dump ⟨1, "ACME", none, some ⟨payloadSample⟩⟩).lookupPath
        ["payload"] = some (.vdict payloadSample) :=
  ⟨rfl, rfl⟩

/-- C9: normalizing a validated record keeps the key of every declared field
— shown for `Location`: the dump's key list is exactly the declared field
list, and when `coordinates` is absent its key is bound to an explicit
null. -/
theorem optional_absent_dumps_null :
    ∀ l : Location,
      (process_fields l.basefields).keys
          = ["id", "countryCode", "description", "mode", "coordinates"]
      ∧ (l.coordinates = none →
          (Location.model_dump l).lookupPath ["coordinates"] = some .vnull) := by
  intro l
  constructor
  · simp [keys_process_fields, Location.basefields, fieldsOf, PyFields.keys]
  · intro h
    simp [Location.model_dump, PyValue.lookupPath, lookup_process_fields,
      Location.basefields, fieldsOf, PyFields.lookup, h, optDump, process_value]

/-- C9 witness: the sample location without coordinates. -/
theorem optional_absent_dumps_null_witness :
    (process_fields sampleLocation.basefields).keys
        = ["id", "countryCode", "description", "mode", "coordinates"]
    ∧ (Location.model_dump sampleLocation).lookupPath ["coordinates"]
        = some .vnull :=
  ⟨(optional_absent_dumps_null sampleLocation).1,
   (optional_absent_dumps_null sampleLocation).2 rfl⟩

/-- C10: date and datetime strings are validated only against the
digit-shape pattern, never against calendar semantics — every string of
shape `\d{4}-\d{2}-\d{2}` is accepted as `Insurance.activationDate`, the
calendar-impossible `"9999-99-99"` has that shape, and
`"2024-13-40T25:61:61Z"` validates as `Geolocation.dateTime`. -/
theorem date_fields_shape_only :
    (∀ s : String, dateShape s = true →
        Insurance.validate (insuranceRawWithDate s)
          = .ok ⟨1, "Ins", "123", true, s, "2030-01-01", none⟩)
    ∧ dateShape "9999-99-99" = true
    ∧ Geolocation.validate (.vdict (fieldsOf
        [("dateTime", .vstr "2024-13-40T25:61:61Z"),
         ("coordinates", .vdict (fieldsOf [("latitude", .vnum 0),
            ("longitude", .vnum 0)]))]))
        = .ok ⟨"2024-13-40T25:61:61Z", ⟨0, 0⟩⟩ := by
  refine ⟨fun s h => ?_, rfl, rfl⟩
  have e1 : intGe 1 (.vint 1) = .ok 1 := rfl
  have e2 : strLen 1 20 (.vstr "Ins") = .ok "Ins" := rfl
  have e3 : strLen 1 20 (.vstr "123") = .ok "123" := rfl
  have e4 : strShape dateShape (.vstr "2030-01-01") = .ok "2030-01-01" := rfl
  have e5 : strShape dateShape (.vstr s) = .ok s := by simp [strShape, h]
  simp [Insurance.validate, insuranceRawWithDate, PyFields.lookup, fieldsOf,
    reqF, optF, atField, vapp, boolF, e1, e2, e3, e4, e5]

/-- C10 witness: the calendar-impossible date `"9999-99-99"` validates. -/
theorem date_fields_shape_only_witness :
    dateShape "9999-99-99" = true
    ∧ Insurance.validate (insuranceRawWithDate "9999-99-99")
        = .ok ⟨1, "Ins", "123", true, "9999-99-99", "2030-01-01", none⟩ :=
  ⟨rfl, date_fields_shape_only.1 "9999-99-99" rfl⟩

end Keystone
